import Mathlib

/-!
Verification of the hazard-curve aggregation engine
(`openquake/hazardlib/calc/hazard_curve.py`) and of the
`BergeThierry2003` ground-motion model (`nhlib/gsim/berge_thierry_2003.py`).

The Python code is shallowly embedded: numpy arrays become lists of lists of
real numbers, Python exceptions become `Except PyErr` with the exception class
name and message recorded, and the lazy generator pipeline becomes explicit
structural recursion over lists (errors abort the computation exactly where the
corresponding Python exception would propagate).
-/

noncomputable section

namespace OQ

/-- A Python exception value: the exception class name together with its
`message` attribute (Python 2 semantics: the single constructor argument). -/
structure PyErr where
  name : String
  message : String
deriving DecidableEq

/-- A 2-d numpy float array, site-major: one row per site, one column per
intensity level. -/
abbrev Mat := List (List ℝ)

/-- Modelled from the spec: a rupture carries a tectonic-region-type tag and
yields a scalar probability of one-or-more occurrences via the TOM contract
(`rupture.get_probability_one_or_more_occurrences()` in the source; the method
call may raise, e.g. a `DomainError` for a negative rate, hence `Except`).
The classes behind this interface (`openquake.hazardlib.source`,
`openquake.hazardlib.tom`) are not part of the sources under review. -/
structure Rupture where
  tectonic_region_type : String
  get_probability_one_or_more_occurrences : Except PyErr ℝ

/-- Modelled from the spec: a seismic source owns an identifier used for error
attribution and produces a finite sequence of ruptures under a Poissonian
temporal occurrence model configured with the investigation time span
(`source.iter_ruptures(tom)` in the source, with `tom = PoissonTOM(time_span)`;
enumeration may raise, hence `Except`). -/
structure Source where
  source_id : String
  iter_ruptures : ℝ → Except PyErr (List Rupture)

/-- Modelled from the spec: the ground-motion model contract consumed by the
aggregator.  `make_contexts` derives ephemeral contexts (of an abstract type
`γ`) from the surviving site subset and the rupture, and `get_poes_cav`
converts contexts, an IMT, its levels, the truncation level and the CAV
threshold into a per-site-per-level exceedance-probability array.  Either stage
may raise (`ContextError`, model-internal errors), hence `Except`. -/
structure Gsim (γ : Type) where
  make_contexts : List ℕ → Rupture → Except PyErr γ
  get_poes_cav : γ → String → List ℝ → ℝ → ℝ → Except PyErr Mat

/-- Elementwise product of two 2-d arrays (`curves[imt] *= ...` in the
source). -/
def matMul (a b : Mat) : Mat :=
  List.zipWith (fun r s => List.zipWith (fun x y => x * y) r s) a b

/-- Modelled from the spec: `SiteCollection.expand(array, total_sites,
placeholder)` scatters a dense reduced array (one row per site of the subset,
in subset order) back into a full-length array using the subset's index
mapping, filling the rows of absent sites with the placeholder value 1.0.
`indices` is the list of full-collection indices retained by the subset;
`numLevels` is the row width of the accumulator being updated.
(`openquake.hazardlib.site` is not part of the sources under review.) -/
def expand (indices : List ℕ) (arr : Mat) (total : ℕ) (numLevels : ℕ) : Mat :=
  (List.range total).map (fun i =>
    let k := indices.indexOf i
    if k < arr.length then arr.getD k [] else List.replicate numLevels 1)

/-- The per-rupture factor `(1 - prob) ** poes` of the source, elementwise over
the (site × level) grid of the reduced site subset (real-number power). -/
def poeFactor (prob : ℝ) (poes : Mat) : Mat :=
  poes.map (fun row => row.map (fun p => (1 - prob) ^ p))

/-- One accumulator update of the source:
`curves[imt] *= r_sites.expand((1 - prob) ** poes, total_sites,
placeholder=1)`. -/
def curveStep (cur : Mat) (r_sites : List ℕ) (prob : ℝ) (poes : Mat)
    (total numLevels : ℕ) : Mat :=
  matMul cur (expand r_sites (poeFactor prob poes) total numLevels)

/-- The dictionary lookup `gsims[rupture.tectonic_region_type]`; a missing key
raises `KeyError` whose message is the key. -/
def gsimLookup {γ : Type} (gsims : List (String × Gsim γ)) (trt : String) :
    Except PyErr (Gsim γ) :=
  match List.lookup trt gsims with
  | some g => Except.ok g
  | none => Except.error ⟨"KeyError", trt⟩

/-- The read-only configuration threaded through the aggregation loops:
everything of `hazard_curves_poissonian`'s signature except the sources and
the mutable accumulator. -/
structure Cfg (γ : Type) where
  gsims : List (String × Gsim γ)
  imts : List (String × List ℝ)
  total_sites : ℕ
  time_span : ℝ
  truncation_level : ℝ
  cav_min : ℝ
  rupture_site_filter : List (Rupture × List ℕ) → Except PyErr (List (Rupture × List ℕ))

/-- The `for imt in imts:` loop body of the source: for each IMT (paired with
its current accumulator), compute the exceedance probabilities and fold the
rupture's contribution into that IMT's accumulator. -/
def foldIMTs {γ : Type} (cfg : Cfg γ) (g : Gsim γ) (ctx : γ) (prob : ℝ)
    (r_sites : List ℕ) : List ((String × List ℝ) × Mat) → Except PyErr (List Mat)
  | [] => Except.ok []
  | pc :: rest =>
    match g.get_poes_cav ctx pc.1.1 pc.1.2 cfg.truncation_level cfg.cav_min with
    | Except.error e => Except.error e
    | Except.ok poes =>
      match foldIMTs cfg g ctx prob r_sites rest with
      | Except.error e => Except.error e
      | Except.ok ms =>
        Except.ok (curveStep pc.2 r_sites prob poes cfg.total_sites pc.1.2.length :: ms)

/-- The `for rupture, r_sites in rupture_site_filter(ruptures_sites):` loop of
the source: per surviving rupture, compute the occurrence probability, resolve
the ground-motion model by tectonic region type, build the contexts and update
every IMT's accumulator. -/
def foldRuptures {γ : Type} (cfg : Cfg γ) :
    List Mat → List (Rupture × List ℕ) → Except PyErr (List Mat)
  | curves, [] => Except.ok curves
  | curves, pair :: rest =>
    match pair.1.get_probability_one_or_more_occurrences with
    | Except.error e => Except.error e
    | Except.ok prob =>
      match gsimLookup cfg.gsims pair.1.tectonic_region_type with
      | Except.error e => Except.error e
      | Except.ok g =>
        match g.make_contexts pair.2 pair.1 with
        | Except.error e => Except.error e
        | Except.ok ctx =>
          match foldIMTs cfg g ctx prob pair.2 (cfg.imts.zip curves) with
          | Except.error e => Except.error e
          | Except.ok curves' => foldRuptures cfg curves' rest

/-- The body of the `try:` block of the source for one surviving
(source, site-subset) pair: enumerate the ruptures, pair them with the reduced
site subset, pass through the rupture-site filter and process each surviving
rupture. -/
def innerSource {γ : Type} (cfg : Cfg γ) (curves : List Mat) (source : Source)
    (s_sites : List ℕ) : Except PyErr (List Mat) :=
  match source.iter_ruptures cfg.time_span with
  | Except.error e => Except.error e
  | Except.ok rups =>
    match cfg.rupture_site_filter (rups.map (fun r => (r, s_sites))) with
    | Except.error e => Except.error e
    | Except.ok pairs => foldRuptures cfg curves pairs

/-- The `except` clause of the source:
`raise RuntimeError('An error occurred with source id=%s. Error: %s' %
(source.source_id, err.message))`. -/
def sourceErr (source_id : String) (e : PyErr) : PyErr :=
  ⟨"RuntimeError",
   "An error occurred with source id=" ++ source_id ++ ". Error: " ++ e.message⟩

/-- The `for source, s_sites in source_site_filter(sources_sites):` loop of the
source, with its `try ... except` wrapping: any exception raised while
processing a source is re-raised as a `RuntimeError` carrying the source id
and the original message, aborting the whole computation. -/
def foldSources {γ : Type} (cfg : Cfg γ) :
    List Mat → List (Source × List ℕ) → Except PyErr (List Mat)
  | curves, [] => Except.ok curves
  | curves, p :: rest =>
    match innerSource cfg curves p.1 p.2 with
    | Except.error e => Except.error (sourceErr p.1.source_id e)
    | Except.ok c => foldSources cfg c rest

/-- The initial accumulators of the source:
`curves = dict((imt, numpy.ones([len(sites), len(imts[imt])])) for imt in
imts)`, represented as a list of matrices parallel to the `imts` association
list. -/
def initCurves (imts : List (String × List ℝ)) (total : ℕ) : List Mat :=
  imts.map (fun p => List.replicate total (List.replicate p.2.length 1))

/-- The aggregator `hazard_curves_poissonian` of
`openquake/hazardlib/calc/hazard_curve.py`.  The site collection enters only
through its length (`total_sites`); the full subset is `List.range
total_sites`, and reduced subsets are lists of indices.  The returned
dictionary is represented as a list of (site × level) matrices parallel to the
`imts` association list. -/
def hazard_curves_poissonian {γ : Type} (sources : List Source)
    (total_sites : ℕ) (imts : List (String × List ℝ)) (time_span : ℝ)
    (gsims : List (String × Gsim γ)) (truncation_level : ℝ)
    (source_site_filter :
      List (Source × List ℕ) → Except PyErr (List (Source × List ℕ)))
    (rupture_site_filter :
      List (Rupture × List ℕ) → Except PyErr (List (Rupture × List ℕ)))
    (cav_min : ℝ) : Except PyErr (List Mat) :=
  match source_site_filter (sources.map (fun s => (s, List.range total_sites))) with
  | Except.error e => Except.error e
  | Except.ok pairs =>
    match foldSources
        ⟨gsims, imts, total_sites, time_span, truncation_level, cav_min,
         rupture_site_filter⟩
        (initCurves imts total_sites) pairs with
    | Except.error e => Except.error e
    | Except.ok final =>
      Except.ok (final.map (fun m => m.map (fun row => row.map (fun x => 1 - x))))

/-- Modelled from the spec: the default source-site filter
(`filters.source_site_noop_filter`) passes every pair through unchanged
(`openquake.hazardlib.calc.filters` is not part of the sources under
review). -/
def source_site_noop_filter :
    List (Source × List ℕ) → Except PyErr (List (Source × List ℕ)) :=
  fun l => Except.ok l

/-- Modelled from the spec: the default rupture-site filter
(`filters.rupture_site_noop_filter`) passes every pair through unchanged. -/
def rupture_site_noop_filter :
    List (Rupture × List ℕ) → Except PyErr (List (Rupture × List ℕ)) :=
  fun l => Except.ok l

/-- Every entry of the row lies in [0, 1]. -/
def rowIn01 (row : List ℝ) : Prop := ∀ x ∈ row, 0 ≤ x ∧ x ≤ 1

/-- Every entry of the matrix lies in [0, 1]. -/
def matIn01 (m : Mat) : Prop := ∀ row ∈ m, rowIn01 row

/-- The matrix has `total` rows, each of width `L`. -/
def matShape (m : Mat) (total L : ℕ) : Prop :=
  m.length = total ∧ ∀ row ∈ m, row.length = L

/-- Pointwise `≤` of equally-shaped matrices. -/
def matLE (a b : Mat) : Prop := List.Forall₂ (List.Forall₂ (fun x y => x ≤ y)) a b

/-- The accumulator invariant: one matrix per IMT, each of shape
(total sites × number of levels of that IMT), with every entry in [0, 1]. -/
def curvesOK (imts : List (String × List ℝ)) (total : ℕ) (cs : List Mat) : Prop :=
  List.Forall₂ (fun p m => matShape m total p.2.length ∧ matIn01 m) imts cs

/-- Pointwise `≤` of accumulator families. -/
def curvesLE (a b : List Mat) : Prop := List.Forall₂ matLE a b

/-- The §4.3 contract of the spec for a ground-motion model: whenever
`get_poes_cav` succeeds, the returned values are probabilities in [0, 1], one
column per requested intensity level. -/
def GoodGsim {γ : Type} (g : Gsim γ) : Prop :=
  ∀ ctx imt levels tl cav poes,
    g.get_poes_cav ctx imt levels tl cav = Except.ok poes →
    matIn01 poes ∧ ∀ row ∈ poes, row.length = levels.length

/-- A rupture whose occurrence probability, when its computation succeeds, is a
probability in [0, 1]. -/
def GoodRupture (r : Rupture) : Prop :=
  ∀ p, r.get_probability_one_or_more_occurrences = Except.ok p → 0 ≤ p ∧ p ≤ 1

/-- A source all of whose enumerated ruptures satisfy `GoodRupture`. -/
def GoodSource (s : Source) (T : ℝ) : Prop :=
  ∀ rups, s.iter_ruptures T = Except.ok rups → ∀ r ∈ rups, GoodRupture r

/-- One multiplicative reduction step on the accumulator family: elementwise
product with one factor matrix per IMT. -/
def applyFactors (curves : List Mat) (fs : List Mat) : List Mat :=
  List.zipWith matMul curves fs

/-- The expanded per-IMT factor matrices contributed by one rupture: the value
such that the `for imt in imts` loop multiplies the accumulators elementwise
by these matrices. -/
def imtFactors {γ : Type} (cfg : Cfg γ) (g : Gsim γ) (ctx : γ) (prob : ℝ)
    (r_sites : List ℕ) : List (String × List ℝ) → Except PyErr (List Mat)
  | [] => Except.ok []
  | p :: rest =>
    match g.get_poes_cav ctx p.1 p.2 cfg.truncation_level cfg.cav_min with
    | Except.error e => Except.error e
    | Except.ok poes =>
      match imtFactors cfg g ctx prob r_sites rest with
      | Except.error e => Except.error e
      | Except.ok fs =>
        Except.ok (expand r_sites (poeFactor prob poes) cfg.total_sites p.2.length :: fs)

/-- The factor families contributed by a list of surviving rupture pairs, one
entry per rupture. -/
def rupFactors {γ : Type} (cfg : Cfg γ) :
    List (Rupture × List ℕ) → Except PyErr (List (List Mat))
  | [] => Except.ok []
  | pair :: rest =>
    match pair.1.get_probability_one_or_more_occurrences with
    | Except.error e => Except.error e
    | Except.ok prob =>
      match gsimLookup cfg.gsims pair.1.tectonic_region_type with
      | Except.error e => Except.error e
      | Except.ok g =>
        match g.make_contexts pair.2 pair.1 with
        | Except.error e => Except.error e
        | Except.ok ctx =>
          match imtFactors cfg g ctx prob pair.2 cfg.imts with
          | Except.error e => Except.error e
          | Except.ok fs =>
            match rupFactors cfg rest with
            | Except.error e => Except.error e
            | Except.ok rest' => Except.ok (fs :: rest')

/-- The factor families contributed by one surviving source. -/
def srcFactors {γ : Type} (cfg : Cfg γ) (source : Source) (s_sites : List ℕ) :
    Except PyErr (List (List Mat)) :=
  match source.iter_ruptures cfg.time_span with
  | Except.error e => Except.error e
  | Except.ok rups =>
    match cfg.rupture_site_filter (rups.map (fun r => (r, s_sites))) with
    | Except.error e => Except.error e
    | Except.ok pairs => rupFactors cfg pairs

/-- The concatenated factor families of all surviving sources, with the
per-source error wrapping of the aggregator. -/
def allFactors {γ : Type} (cfg : Cfg γ) :
    List (Source × List ℕ) → Except PyErr (List (List Mat))
  | [] => Except.ok []
  | p :: rest =>
    match srcFactors cfg p.1 p.2 with
    | Except.error e => Except.error (sourceErr p.1.source_id e)
    | Except.ok fss =>
      match allFactors cfg rest with
      | Except.error e => Except.error e
      | Except.ok rest' => Except.ok (fss ++ rest')

/-- The successful value of an `Except`, with a default for the error case. -/
def exceptOkD {ε α : Type} (x : Except ε α) (d : α) : α :=
  match x with
  | Except.ok a => a
  | Except.error _ => d

/-- A well-behaved ground-motion model stub: context building always succeeds
and every exceedance probability is 0.5, in one row shaped like the requested
levels. -/
def wGsim : Gsim Unit :=
  ⟨fun _ _ => Except.ok (),
   fun _ _ levels _ _ => Except.ok [levels.map (fun _ => 0.5)]⟩

/-- A ground-motion model stub whose exceedance-probability computation always
raises a `ValueError`. -/
def failGsim : Gsim Unit :=
  ⟨fun _ _ => Except.ok (),
   fun _ _ _ _ _ => Except.error ⟨"ValueError", "bad value"⟩⟩

/-- A rupture of tectonic region type `trt` with occurrence probability 0.1. -/
def rupA : Rupture := ⟨"trt", Except.ok 0.1⟩

/-- A rupture of tectonic region type `trt` with occurrence probability 0.2. -/
def rupB : Rupture := ⟨"trt", Except.ok 0.2⟩

/-- A rupture of tectonic region type `X` with occurrence probability 0.1. -/
def rupX : Rupture := ⟨"X", Except.ok 0.1⟩

/-- A source producing the single rupture `rupA`. -/
def srcA : Source := ⟨"sA", fun _ => Except.ok [rupA]⟩

/-- A source producing the single rupture `rupB`. -/
def srcB : Source := ⟨"sB", fun _ => Except.ok [rupB]⟩

/-- A source producing the single rupture `rupX`. -/
def srcX : Source := ⟨"s7", fun _ => Except.ok [rupX]⟩

/-- A ground-motion model mapping with the well-behaved stub for `trt`. -/
def gsimsW : List (String × Gsim Unit) := [("trt", wGsim)]

/-- A ground-motion model mapping with the always-failing stub for `trt`. -/
def gsimsF : List (String × Gsim Unit) := [("trt", failGsim)]

/-- One intensity measure type with a single level. -/
def imtsW : List (String × List ℝ) := [("PGA", [0.3])]

/-- The error raised by the failing filter stubs. -/
def filterErr : PyErr := ⟨"FilterError", "malformed geometry"⟩

/-- A source-site filter stub that always raises `filterErr`. -/
def badSourceSiteFilter :
    List (Source × List ℕ) → Except PyErr (List (Source × List ℕ)) :=
  fun _ => Except.error filterErr

/-- A rupture-site filter stub that always raises `filterErr`. -/
def badRuptureSiteFilter :
    List (Rupture × List ℕ) → Except PyErr (List (Rupture × List ℕ)) :=
  fun _ => Except.error filterErr


namespace BergeThierry2003

/-- One row of a coefficient table of the source: the magnitude-scaling
coefficient `a`, the distance-scaling coefficient `b`, the site-amplification
coefficients `c1` (rock) and `c2` (alluvium), and the total standard deviation
`std`. -/
structure Coeffs where
  a : ℝ
  b : ℝ
  c1 : ℝ
  c2 : ℝ
  std : ℝ

/-- The sites context consumed by the model: the `vs30` value of each site, in
site-collection order (`REQUIRES_SITES_PARAMETERS = set(('vs30',))`). -/
structure SitesContext where
  vs30 : List ℝ

/-- The rupture context.  The source requires only `mag`
(`REQUIRES_RUPTURE_PARAMETERS = set(('mag',))`), but
`get_mean_and_stddevs` passes this object to `_compute_distance_scaling`,
whose body reads the dynamically resolved attribute `rhypo` of whatever object
it receives; the embedding therefore records that attribute here. -/
structure RuptureContext where
  mag : ℝ
  rhypo : ℝ

/-- The distances context (`REQUIRES_DISTANCES = set(('rhypo',))`): the
hypocentral distance of each site. -/
structure DistancesContext where
  rhypo : List ℝ

/-- The standard-deviation types of `nhlib.const.StdDev`. -/
inductive StdDev where
  | total : StdDev
  | inter_event : StdDev
  | intra_event : StdDev
deriving DecidableEq

/-- A spectral-acceleration IMT: `imt[0]` is the period, `imt[1]` the damping
(the source indexes the damping as `imt[1]`). -/
structure IMT where
  period : ℝ
  damping : ℕ

/-- `COEFFS05` of the source (table 2, pag 203, damping 5%), as an association
list from period to coefficient row, in the source's row order. -/
def COEFFS05 : List (ℝ × Coeffs) := [
  (2.9412e-02, Coeffs.mk (3.1180e-01) (-9.3030e-04) (1.5370e+00) (1.5730e+00) (2.9230e-01)),
  (3.0000e-02, Coeffs.mk (3.1140e-01) (-9.3340e-04) (1.5410e+00) (1.5760e+00) (2.9240e-01)),
  (3.2258e-02, Coeffs.mk (3.0970e-01) (-9.4220e-04) (1.5580e+00) (1.5890e+00) (2.9280e-01)),
  (3.4000e-02, Coeffs.mk (3.0830e-01) (-9.5470e-04) (1.5730e+00) (1.6020e+00) (2.9350e-01)),
  (3.5714e-02, Coeffs.mk (3.0680e-01) (-9.8220e-04) (1.5930e+00) (1.6180e+00) (2.9470e-01)),
  (4.0000e-02, Coeffs.mk (3.0330e-01) (-1.1190e-03) (1.6530e+00) (1.6650e+00) (2.9820e-01)),
  (4.5455e-02, Coeffs.mk (3.0160e-01) (-1.2820e-03) (1.7010e+00) (1.7000e+00) (3.0150e-01)),
  (5.0000e-02, Coeffs.mk (2.9920e-01) (-1.3410e-03) (1.7400e+00) (1.7290e+00) (3.0090e-01)),
  (5.3000e-02, Coeffs.mk (2.9810e-01) (-1.4290e-03) (1.7660e+00) (1.7490e+00) (3.0220e-01)),
  (5.5556e-02, Coeffs.mk (2.9690e-01) (-1.4320e-03) (1.7850e+00) (1.7650e+00) (3.0270e-01)),
  (5.8824e-02, Coeffs.mk (2.9600e-01) (-1.4600e-03) (1.8090e+00) (1.7840e+00) (3.0400e-01)),
  (5.9999e-02, Coeffs.mk (2.9600e-01) (-1.4720e-03) (1.8140e+00) (1.7880e+00) (3.0410e-01)),
  (6.2500e-02, Coeffs.mk (2.9650e-01) (-1.5070e-03) (1.8260e+00) (1.7960e+00) (3.0470e-01)),
  (6.4998e-02, Coeffs.mk (2.9440e-01) (-1.5150e-03) (1.8510e+00) (1.8170e+00) (3.0590e-01)),
  (6.6667e-02, Coeffs.mk (2.9330e-01) (-1.5130e-03) (1.8650e+00) (1.8290e+00) (3.0590e-01)),
  (6.8966e-02, Coeffs.mk (2.9240e-01) (-1.5460e-03) (1.8810e+00) (1.8420e+00) (3.0480e-01)),
  (6.9999e-02, Coeffs.mk (2.9200e-01) (-1.5700e-03) (1.8880e+00) (1.8490e+00) (3.0460e-01)),
  (7.1429e-02, Coeffs.mk (2.9090e-01) (-1.5830e-03) (1.9010e+00) (1.8610e+00) (3.0470e-01)),
  (7.4074e-02, Coeffs.mk (2.8790e-01) (-1.5550e-03) (1.9260e+00) (1.8870e+00) (3.0590e-01)),
  (7.5002e-02, Coeffs.mk (2.8710e-01) (-1.5400e-03) (1.9330e+00) (1.8930e+00) (3.0660e-01)),
  (7.6923e-02, Coeffs.mk (2.8570e-01) (-1.5200e-03) (1.9470e+00) (1.9060e+00) (3.0720e-01)),
  (8.0000e-02, Coeffs.mk (2.8660e-01) (-1.5310e-03) (1.9540e+00) (1.9110e+00) (3.0610e-01)),
  (8.3333e-02, Coeffs.mk (2.8580e-01) (-1.5520e-03) (1.9680e+00) (1.9270e+00) (3.0580e-01)),
  (8.4998e-02, Coeffs.mk (2.8560e-01) (-1.5830e-03) (1.9760e+00) (1.9350e+00) (3.0530e-01)),
  (8.6957e-02, Coeffs.mk (2.8480e-01) (-1.5710e-03) (1.9870e+00) (1.9460e+00) (3.0420e-01)),
  (9.0001e-02, Coeffs.mk (2.8190e-01) (-1.5360e-03) (2.0110e+00) (1.9730e+00) (3.0200e-01)),
  (9.0909e-02, Coeffs.mk (2.8090e-01) (-1.5280e-03) (2.0200e+00) (1.9810e+00) (3.0160e-01)),
  (9.5238e-02, Coeffs.mk (2.7810e-01) (-1.5430e-03) (2.0540e+00) (2.0100e+00) (3.0170e-01)),
  (1.0000e-01, Coeffs.mk (2.7860e-01) (-1.4740e-03) (2.0590e+00) (2.0160e+00) (3.0190e-01)),
  (1.0526e-01, Coeffs.mk (2.7760e-01) (-1.4220e-03) (2.0720e+00) (2.0340e+00) (3.0430e-01)),
  (1.1000e-01, Coeffs.mk (2.7830e-01) (-1.4420e-03) (2.0750e+00) (2.0450e+00) (3.0730e-01)),
  (1.1111e-01, Coeffs.mk (2.7830e-01) (-1.4380e-03) (2.0770e+00) (2.0470e+00) (3.0790e-01)),
  (1.1765e-01, Coeffs.mk (2.7930e-01) (-1.4380e-03) (2.0810e+00) (2.0560e+00) (3.1030e-01)),
  (1.2000e-01, Coeffs.mk (2.8060e-01) (-1.4360e-03) (2.0760e+00) (2.0540e+00) (3.1060e-01)),
  (1.2500e-01, Coeffs.mk (2.8310e-01) (-1.4150e-03) (2.0660e+00) (2.0510e+00) (3.1210e-01)),
  (1.2903e-01, Coeffs.mk (2.8630e-01) (-1.4400e-03) (2.0520e+00) (2.0420e+00) (3.1370e-01)),
  (1.3001e-01, Coeffs.mk (2.8670e-01) (-1.4250e-03) (2.0500e+00) (2.0400e+00) (3.1420e-01)),
  (1.3333e-01, Coeffs.mk (2.8870e-01) (-1.3970e-03) (2.0400e+00) (2.0330e+00) (3.1560e-01)),
  (1.3793e-01, Coeffs.mk (2.9030e-01) (-1.3380e-03) (2.0320e+00) (2.0280e+00) (3.1610e-01)),
  (1.4000e-01, Coeffs.mk (2.9150e-01) (-1.3220e-03) (2.0270e+00) (2.0220e+00) (3.1660e-01)),
  (1.4286e-01, Coeffs.mk (2.9330e-01) (-1.3070e-03) (2.0180e+00) (2.0140e+00) (3.1730e-01)),
  (1.4815e-01, Coeffs.mk (2.9500e-01) (-1.2560e-03) (2.0090e+00) (2.0100e+00) (3.1910e-01)),
  (1.4999e-01, Coeffs.mk (2.9550e-01) (-1.2180e-03) (2.0040e+00) (2.0090e+00) (3.1960e-01)),
  (1.5385e-01, Coeffs.mk (2.9550e-01) (-1.0520e-03) (1.9970e+00) (2.0070e+00) (3.2010e-01)),
  (1.6000e-01, Coeffs.mk (2.9390e-01) (-8.0560e-04) (1.9960e+00) (2.0130e+00) (3.2000e-01)),
  (1.6667e-01, Coeffs.mk (2.9520e-01) (-7.0970e-04) (1.9890e+00) (2.0060e+00) (3.2150e-01)),
  (1.7001e-01, Coeffs.mk (2.9740e-01) (-6.9860e-04) (1.9780e+00) (1.9940e+00) (3.2300e-01)),
  (1.7391e-01, Coeffs.mk (3.0160e-01) (-7.3410e-04) (1.9570e+00) (1.9700e+00) (3.2470e-01)),
  (1.7999e-01, Coeffs.mk (3.0890e-01) (-7.7930e-04) (1.9150e+00) (1.9300e+00) (3.2670e-01)),
  (1.8182e-01, Coeffs.mk (3.1090e-01) (-7.8260e-04) (1.9010e+00) (1.9190e+00) (3.2710e-01)),
  (1.9001e-01, Coeffs.mk (3.1470e-01) (-7.3690e-04) (1.8680e+00) (1.8940e+00) (3.2620e-01)),
  (1.9048e-01, Coeffs.mk (3.1490e-01) (-7.3370e-04) (1.8670e+00) (1.8930e+00) (3.2620e-01)),
  (2.0000e-01, Coeffs.mk (3.1670e-01) (-6.8890e-04) (1.8430e+00) (1.8810e+00) (3.2500e-01)),
  (2.0833e-01, Coeffs.mk (3.1960e-01) (-6.7190e-04) (1.8140e+00) (1.8610e+00) (3.2610e-01)),
  (2.1739e-01, Coeffs.mk (3.2540e-01) (-6.7500e-04) (1.7700e+00) (1.8250e+00) (3.2810e-01)),
  (2.1978e-01, Coeffs.mk (3.2710e-01) (-6.9180e-04) (1.7580e+00) (1.8150e+00) (3.2920e-01)),
  (2.2727e-01, Coeffs.mk (3.3030e-01) (-6.6780e-04) (1.7260e+00) (1.7920e+00) (3.3200e-01)),
  (2.3810e-01, Coeffs.mk (3.3400e-01) (-6.1710e-04) (1.6830e+00) (1.7620e+00) (3.3670e-01)),
  (2.3998e-01, Coeffs.mk (3.3440e-01) (-5.9880e-04) (1.6770e+00) (1.7580e+00) (3.3710e-01)),
  (2.5000e-01, Coeffs.mk (3.3650e-01) (-5.7500e-04) (1.6510e+00) (1.7360e+00) (3.3940e-01)),
  (2.5974e-01, Coeffs.mk (3.4300e-01) (-7.0750e-04) (1.6090e+00) (1.6970e+00) (3.4220e-01)),
  (2.6316e-01, Coeffs.mk (3.4420e-01) (-7.2000e-04) (1.5990e+00) (1.6880e+00) (3.4290e-01)),
  (2.7778e-01, Coeffs.mk (3.5010e-01) (-7.5200e-04) (1.5500e+00) (1.6450e+00) (3.4440e-01)),
  (2.8003e-01, Coeffs.mk (3.5110e-01) (-7.5300e-04) (1.5420e+00) (1.6380e+00) (3.4470e-01)),
  (2.9002e-01, Coeffs.mk (3.5550e-01) (-7.8360e-04) (1.5060e+00) (1.6050e+00) (3.4580e-01)),
  (3.0003e-01, Coeffs.mk (3.5900e-01) (-8.5200e-04) (1.4770e+00) (1.5810e+00) (3.4770e-01)),
  (3.0303e-01, Coeffs.mk (3.6020e-01) (-8.7370e-04) (1.4660e+00) (1.5730e+00) (3.4830e-01)),
  (3.1696e-01, Coeffs.mk (3.6710e-01) (-9.2720e-04) (1.4120e+00) (1.5250e+00) (3.4910e-01)),
  (3.2000e-01, Coeffs.mk (3.6900e-01) (-9.4680e-04) (1.3970e+00) (1.5120e+00) (3.4870e-01)),
  (3.3333e-01, Coeffs.mk (3.7420e-01) (-1.0100e-03) (1.3520e+00) (1.4720e+00) (3.4740e-01)),
  (3.4002e-01, Coeffs.mk (3.7520e-01) (-1.0060e-03) (1.3370e+00) (1.4610e+00) (3.4690e-01)),
  (3.4483e-01, Coeffs.mk (3.7600e-01) (-9.6980e-04) (1.3260e+00) (1.4520e+00) (3.4710e-01)),
  (3.5714e-01, Coeffs.mk (3.8070e-01) (-9.1140e-04) (1.2860e+00) (1.4150e+00) (3.4810e-01)),
  (3.5997e-01, Coeffs.mk (3.8220e-01) (-9.0390e-04) (1.2750e+00) (1.4050e+00) (3.4840e-01)),
  (3.7037e-01, Coeffs.mk (3.8670e-01) (-8.6350e-04) (1.2370e+00) (1.3720e+00) (3.4920e-01)),
  (3.7994e-01, Coeffs.mk (3.9090e-01) (-8.0740e-04) (1.1990e+00) (1.3390e+00) (3.5000e-01)),
  (3.8462e-01, Coeffs.mk (3.9310e-01) (-7.9550e-04) (1.1790e+00) (1.3210e+00) (3.5070e-01)),
  (4.0000e-01, Coeffs.mk (3.9970e-01) (-7.0780e-04) (1.1190e+00) (1.2670e+00) (3.5170e-01)),
  (4.1667e-01, Coeffs.mk (4.0280e-01) (-6.6130e-04) (1.0780e+00) (1.2320e+00) (3.5120e-01)),
  (4.1999e-01, Coeffs.mk (4.0340e-01) (-6.5130e-04) (1.0700e+00) (1.2260e+00) (3.5130e-01)),
  (4.3478e-01, Coeffs.mk (4.0700e-01) (-6.1670e-04) (1.0290e+00) (1.1910e+00) (3.5210e-01)),
  (4.3995e-01, Coeffs.mk (4.0890e-01) (-6.1180e-04) (1.0110e+00) (1.1740e+00) (3.5270e-01)),
  (4.5455e-01, Coeffs.mk (4.1480e-01) (-5.9310e-04) (9.6010e-01) (1.1250e+00) (3.5470e-01)),
  (4.5998e-01, Coeffs.mk (4.1650e-01) (-5.8160e-04) (9.4400e-01) (1.1090e+00) (3.5490e-01)),
  (4.7619e-01, Coeffs.mk (4.2220e-01) (-5.4040e-04) (8.9310e-01) (1.0580e+00) (3.5550e-01)),
  (4.8008e-01, Coeffs.mk (4.2390e-01) (-5.4840e-04) (8.7950e-01) (1.0450e+00) (3.5560e-01)),
  (5.0000e-01, Coeffs.mk (4.3230e-01) (-5.6800e-04) (8.1500e-01) (9.7970e-01) (3.5550e-01)),
  (5.2002e-01, Coeffs.mk (4.3720e-01) (-5.3960e-04) (7.6420e-01) (9.3240e-01) (3.5680e-01)),
  (5.2632e-01, Coeffs.mk (4.3790e-01) (-5.0500e-04) (7.5220e-01) (9.2080e-01) (3.5700e-01)),
  (5.3996e-01, Coeffs.mk (4.3940e-01) (-4.3300e-04) (7.2710e-01) (8.9590e-01) (3.5740e-01)),
  (5.5556e-01, Coeffs.mk (4.4180e-01) (-3.6010e-04) (6.9410e-01) (8.6610e-01) (3.5870e-01)),
  (5.5991e-01, Coeffs.mk (4.4250e-01) (-3.3800e-04) (6.8440e-01) (8.5710e-01) (3.5920e-01)),
  (5.8005e-01, Coeffs.mk (4.4720e-01) (-2.7020e-04) (6.3570e-01) (8.1170e-01) (3.6100e-01)),
  (5.8824e-01, Coeffs.mk (4.4920e-01) (-2.5220e-04) (6.1570e-01) (7.9260e-01) (3.6090e-01)),
  (5.9988e-01, Coeffs.mk (4.5160e-01) (-2.1750e-04) (5.8950e-01) (7.6820e-01) (3.6030e-01)),
  (6.1996e-01, Coeffs.mk (4.5590e-01) (-1.9530e-04) (5.4780e-01) (7.2820e-01) (3.6040e-01)),
  (6.2500e-01, Coeffs.mk (4.5690e-01) (-1.9950e-04) (5.3830e-01) (7.1870e-01) (3.6090e-01)),
  (6.4020e-01, Coeffs.mk (4.5960e-01) (-1.6660e-04) (5.1060e-01) (6.9100e-01) (3.6250e-01)),
  (6.6007e-01, Coeffs.mk (4.6370e-01) (-1.5490e-04) (4.7250e-01) (6.5200e-01) (3.6470e-01)),
  (6.6667e-01, Coeffs.mk (4.6550e-01) (-1.5500e-04) (4.5730e-01) (6.3630e-01) (3.6490e-01)),
  (6.7981e-01, Coeffs.mk (4.6880e-01) (-1.6680e-04) (4.2840e-01) (6.0810e-01) (3.6550e-01)),
  (6.9979e-01, Coeffs.mk (4.7320e-01) (-1.7000e-04) (3.8570e-01) (5.6760e-01) (3.6670e-01)),
  (7.1429e-01, Coeffs.mk (4.7710e-01) (-2.0190e-04) (3.5480e-01) (5.3540e-01) (3.6800e-01)),
  (7.5019e-01, Coeffs.mk (4.8470e-01) (-3.0090e-04) (2.8710e-01) (4.6810e-01) (3.7000e-01)),
  (7.6923e-01, Coeffs.mk (4.8750e-01) (-3.1220e-04) (2.5450e-01) (4.3800e-01) (3.7030e-01)),
  (8.0000e-01, Coeffs.mk (4.9400e-01) (-2.5680e-04) (1.9060e-01) (3.7820e-01) (3.7140e-01)),
  (8.3333e-01, Coeffs.mk (5.0100e-01) (-1.9320e-04) (1.2640e-01) (3.1450e-01) (3.7460e-01)),
  (8.5034e-01, Coeffs.mk (5.0400e-01) (-1.4330e-04) (9.6150e-02) (2.8420e-01) (3.7580e-01)),
  (9.0009e-01, Coeffs.mk (5.0980e-01) (3.2820e-05) (2.0060e-02) (2.1300e-01) (3.7470e-01)),
  (9.0909e-01, Coeffs.mk (5.1040e-01) (8.3930e-05) (8.1950e-03) (2.0220e-01) (3.7440e-01)),
  (1.0000e+00, Coeffs.mk (5.1990e-01) (2.5160e-04) (-1.1620e-01) (8.2900e-02) (3.7370e-01)),
  (1.1001e+00, Coeffs.mk (5.2730e-01) (3.9080e-04) (-2.1230e-01) (-2.9000e-02) (3.7940e-01)),
  (1.1111e+00, Coeffs.mk (5.2780e-01) (4.0740e-04) (-2.2070e-01) (-3.8750e-02) (3.8040e-01)),
  (1.2005e+00, Coeffs.mk (5.3610e-01) (4.4790e-04) (-3.1330e-01) (-1.3380e-01) (3.8380e-01)),
  (1.2500e+00, Coeffs.mk (5.4090e-01) (4.8600e-04) (-3.6790e-01) (-1.8910e-01) (3.8770e-01)),
  (1.3004e+00, Coeffs.mk (5.4440e-01) (5.3290e-04) (-4.1130e-01) (-2.3770e-01) (3.9200e-01)),
  (1.4006e+00, Coeffs.mk (5.4810e-01) (7.6760e-04) (-4.8700e-01) (-3.1550e-01) (3.9350e-01)),
  (1.4286e+00, Coeffs.mk (5.4940e-01) (8.2720e-04) (-5.0950e-01) (-3.3850e-01) (3.9410e-01)),
  (1.4993e+00, Coeffs.mk (5.5270e-01) (9.1240e-04) (-5.6040e-01) (-3.9350e-01) (3.9320e-01)),
  (1.6000e+00, Coeffs.mk (5.5570e-01) (9.8440e-04) (-6.1860e-01) (-4.5830e-01) (3.9190e-01)),
  (1.6667e+00, Coeffs.mk (5.5800e-01) (1.0850e-03) (-6.5640e-01) (-5.0260e-01) (3.9190e-01)),
  (1.7986e+00, Coeffs.mk (5.6200e-01) (1.2450e-03) (-7.2580e-01) (-5.8340e-01) (3.9420e-01)),
  (2.0000e+00, Coeffs.mk (5.6220e-01) (1.3750e-03) (-7.9630e-01) (-6.6600e-01) (4.0300e-01)),
  (2.1978e+00, Coeffs.mk (5.6170e-01) (1.6520e-03) (-8.6560e-01) (-7.3950e-01) (4.0550e-01)),
  (2.3981e+00, Coeffs.mk (5.6410e-01) (1.8290e-03) (-9.4060e-01) (-8.1580e-01) (4.0930e-01)),
  (2.5000e+00, Coeffs.mk (5.6540e-01) (1.9210e-03) (-9.7870e-01) (-8.5420e-01) (4.1100e-01)),
  (2.5974e+00, Coeffs.mk (5.6770e-01) (2.0060e-03) (-1.0190e+00) (-8.9800e-01) (4.1300e-01)),
  (2.8011e+00, Coeffs.mk (5.6660e-01) (2.2770e-03) (-1.0710e+00) (-9.4950e-01) (4.2020e-01)),
  (3.0030e+00, Coeffs.mk (5.6830e-01) (2.4490e-03) (-1.1300e+00) (-1.0140e+00) (4.2550e-01)),
  (3.2051e+00, Coeffs.mk (5.6860e-01) (2.5360e-03) (-1.1790e+00) (-1.0690e+00) (4.3010e-01)),
  (3.3333e+00, Coeffs.mk (5.7050e-01) (2.5330e-03) (-1.2200e+00) (-1.1110e+00) (4.3290e-01)),
  (3.4014e+00, Coeffs.mk (5.7150e-01) (2.5410e-03) (-1.2430e+00) (-1.1350e+00) (4.3400e-01)),
  (3.5971e+00, Coeffs.mk (5.7270e-01) (2.5730e-03) (-1.3000e+00) (-1.1940e+00) (4.3590e-01)),
  (3.8023e+00, Coeffs.mk (5.7120e-01) (2.6620e-03) (-1.3500e+00) (-1.2420e+00) (4.3650e-01)),
  (4.0000e+00, Coeffs.mk (5.7220e-01) (2.7110e-03) (-1.4170e+00) (-1.3030e+00) (4.3440e-01)),
  (4.5045e+00, Coeffs.mk (5.8560e-01) (2.4490e-03) (-1.6620e+00) (-1.5200e+00) (4.2780e-01)),
  (5.0000e+00, Coeffs.mk (5.9900e-01) (2.1050e-03) (-1.8860e+00) (-1.7290e+00) (4.2330e-01)),
  (5.4945e+00, Coeffs.mk (6.1060e-01) (1.9410e-03) (-2.0720e+00) (-1.9040e+00) (4.2600e-01)),
  (5.9880e+00, Coeffs.mk (6.1600e-01) (1.8800e-03) (-2.2010e+00) (-2.0280e+00) (4.2840e-01)),
  (6.9930e+00, Coeffs.mk (6.1750e-01) (1.7660e-03) (-2.3730e+00) (-2.1920e+00) (4.2990e-01)),
  (8.0000e+00, Coeffs.mk (6.1450e-01) (1.7210e-03) (-2.4910e+00) (-2.3080e+00) (4.2840e-01)),
  (9.0090e+00, Coeffs.mk (6.1220e-01) (1.6370e-03) (-2.5920e+00) (-2.4080e+00) (4.2360e-01)),
  (1.0000e+01, Coeffs.mk (6.0860e-01) (1.5630e-03) (-2.6680e+00) (-2.4850e+00) (4.1830e-01))
]

/-- `COEFFS20` of the source (damping 20%), as an association list from period
to coefficient row, in the source's row order. -/
def COEFFS20 : List (ℝ × Coeffs) := [
  (1.00e+01, Coeffs.mk (5.93e-01) (1.53e-03) (-2.59e+00) (-2.41e+00) (4.06e-01)),
  (9.01e+00, Coeffs.mk (5.93e-01) (1.56e-03) (-2.49e+00) (-2.32e+00) (4.07e-01)),
  (8.00e+00, Coeffs.mk (5.93e-01) (1.61e-03) (-2.38e+00) (-2.21e+00) (4.09e-01)),
  (6.99e+00, Coeffs.mk (5.92e-01) (1.66e-03) (-2.25e+00) (-2.08e+00) (4.08e-01)),
  (5.99e+00, Coeffs.mk (5.87e-01) (1.71e-03) (-2.07e+00) (-1.91e+00) (4.06e-01)),
  (5.49e+00, Coeffs.mk (5.83e-01) (1.76e-03) (-1.96e+00) (-1.80e+00) (4.05e-01)),
  (5.00e+00, Coeffs.mk (5.78e-01) (1.83e-03) (-1.83e+00) (-1.68e+00) (4.04e-01)),
  (4.50e+00, Coeffs.mk (5.72e-01) (1.89e-03) (-1.68e+00) (-1.54e+00) (4.05e-01)),
  (4.00e+00, Coeffs.mk (5.65e-01) (1.96e-03) (-1.52e+00) (-1.39e+00) (4.04e-01)),
  (3.80e+00, Coeffs.mk (5.63e-01) (1.95e-03) (-1.47e+00) (-1.33e+00) (4.04e-01)),
  (3.60e+00, Coeffs.mk (5.61e-01) (1.91e-03) (-1.40e+00) (-1.27e+00) (4.02e-01)),
  (3.40e+00, Coeffs.mk (5.58e-01) (1.89e-03) (-1.34e+00) (-1.21e+00) (4.01e-01)),
  (3.33e+00, Coeffs.mk (5.57e-01) (1.88e-03) (-1.32e+00) (-1.19e+00) (4.00e-01)),
  (3.21e+00, Coeffs.mk (5.56e-01) (1.83e-03) (-1.28e+00) (-1.15e+00) (3.99e-01)),
  (3.00e+00, Coeffs.mk (5.54e-01) (1.74e-03) (-1.22e+00) (-1.09e+00) (3.95e-01)),
  (2.80e+00, Coeffs.mk (5.54e-01) (1.60e-03) (-1.17e+00) (-1.03e+00) (3.92e-01)),
  (2.60e+00, Coeffs.mk (5.54e-01) (1.43e-03) (-1.11e+00) (-9.76e-01) (3.89e-01)),
  (2.50e+00, Coeffs.mk (5.54e-01) (1.37e-03) (-1.09e+00) (-9.46e-01) (3.87e-01)),
  (2.40e+00, Coeffs.mk (5.53e-01) (1.32e-03) (-1.05e+00) (-9.12e-01) (3.87e-01)),
  (2.20e+00, Coeffs.mk (5.50e-01) (1.20e-03) (-9.76e-01) (-8.31e-01) (3.85e-01)),
  (2.00e+00, Coeffs.mk (5.48e-01) (1.02e-03) (-9.00e-01) (-7.53e-01) (3.84e-01)),
  (1.80e+00, Coeffs.mk (5.46e-01) (8.04e-04) (-8.12e-01) (-6.62e-01) (3.82e-01)),
  (1.67e+00, Coeffs.mk (5.43e-01) (6.53e-04) (-7.45e-01) (-5.91e-01) (3.80e-01)),
  (1.60e+00, Coeffs.mk (5.40e-01) (5.78e-04) (-7.03e-01) (-5.46e-01) (3.79e-01)),
  (1.50e+00, Coeffs.mk (5.36e-01) (4.68e-04) (-6.38e-01) (-4.75e-01) (3.79e-01)),
  (1.43e+00, Coeffs.mk (5.32e-01) (3.90e-04) (-5.87e-01) (-4.22e-01) (3.79e-01)),
  (1.40e+00, Coeffs.mk (5.31e-01) (3.54e-04) (-5.66e-01) (-3.99e-01) (3.78e-01)),
  (1.30e+00, Coeffs.mk (5.25e-01) (2.19e-04) (-4.85e-01) (-3.14e-01) (3.76e-01)),
  (1.25e+00, Coeffs.mk (5.22e-01) (1.61e-04) (-4.42e-01) (-2.69e-01) (3.75e-01)),
  (1.20e+00, Coeffs.mk (5.18e-01) (1.02e-04) (-4.00e-01) (-2.24e-01) (3.73e-01)),
  (1.11e+00, Coeffs.mk (5.13e-01) (-3.93e-06) (-3.20e-01) (-1.40e-01) (3.70e-01)),
  (1.10e+00, Coeffs.mk (5.12e-01) (-1.06e-05) (-3.10e-01) (-1.29e-01) (3.69e-01)),
  (1.00e+00, Coeffs.mk (5.03e-01) (-1.15e-04) (-2.04e-01) (-1.85e-02) (3.66e-01)),
  (9.09e-01, Coeffs.mk (4.93e-01) (-2.15e-04) (-8.75e-02) (9.79e-02) (3.63e-01)),
  (9.00e-01, Coeffs.mk (4.92e-01) (-2.29e-04) (-7.59e-02) (1.09e-01) (3.63e-01)),
  (8.50e-01, Coeffs.mk (4.87e-01) (-3.08e-04) (-7.74e-03) (1.76e-01) (3.62e-01)),
  (8.33e-01, Coeffs.mk (4.84e-01) (-3.13e-04) (1.85e-02) (2.01e-01) (3.61e-01)),
  (8.00e-01, Coeffs.mk (4.79e-01) (-3.25e-04) (7.17e-02) (2.52e-01) (3.60e-01)),
  (7.69e-01, Coeffs.mk (4.74e-01) (-3.49e-04) (1.22e-01) (3.01e-01) (3.59e-01)),
  (7.50e-01, Coeffs.mk (4.71e-01) (-3.68e-04) (1.55e-01) (3.32e-01) (3.58e-01)),
  (7.14e-01, Coeffs.mk (4.65e-01) (-3.97e-04) (2.19e-01) (3.95e-01) (3.56e-01)),
  (7.00e-01, Coeffs.mk (4.62e-01) (-4.05e-04) (2.46e-01) (4.22e-01) (3.55e-01)),
  (6.80e-01, Coeffs.mk (4.58e-01) (-4.17e-04) (2.84e-01) (4.59e-01) (3.54e-01)),
  (6.67e-01, Coeffs.mk (4.55e-01) (-4.26e-04) (3.09e-01) (4.84e-01) (3.54e-01)),
  (6.60e-01, Coeffs.mk (4.54e-01) (-4.31e-04) (3.22e-01) (4.97e-01) (3.53e-01)),
  (6.40e-01, Coeffs.mk (4.50e-01) (-4.30e-04) (3.61e-01) (5.36e-01) (3.52e-01)),
  (6.25e-01, Coeffs.mk (4.47e-01) (-4.33e-04) (3.91e-01) (5.65e-01) (3.52e-01)),
  (6.20e-01, Coeffs.mk (4.46e-01) (-4.35e-04) (4.01e-01) (5.75e-01) (3.51e-01)),
  (6.00e-01, Coeffs.mk (4.42e-01) (-4.51e-04) (4.41e-01) (6.12e-01) (3.50e-01)),
  (5.88e-01, Coeffs.mk (4.40e-01) (-4.62e-04) (4.65e-01) (6.35e-01) (3.50e-01)),
  (5.80e-01, Coeffs.mk (4.38e-01) (-4.70e-04) (4.82e-01) (6.51e-01) (3.49e-01)),
  (5.60e-01, Coeffs.mk (4.34e-01) (-5.02e-04) (5.25e-01) (6.91e-01) (3.48e-01)),
  (5.56e-01, Coeffs.mk (4.33e-01) (-5.11e-04) (5.35e-01) (7.00e-01) (3.48e-01)),
  (5.40e-01, Coeffs.mk (4.29e-01) (-5.32e-04) (5.72e-01) (7.34e-01) (3.47e-01)),
  (5.26e-01, Coeffs.mk (4.26e-01) (-5.48e-04) (6.04e-01) (7.65e-01) (3.47e-01)),
  (5.20e-01, Coeffs.mk (4.25e-01) (-5.60e-04) (6.19e-01) (7.78e-01) (3.46e-01)),
  (5.00e-01, Coeffs.mk (4.20e-01) (-5.88e-04) (6.67e-01) (8.24e-01) (3.45e-01)),
  (4.80e-01, Coeffs.mk (4.15e-01) (-6.38e-04) (7.15e-01) (8.71e-01) (3.45e-01)),
  (4.76e-01, Coeffs.mk (4.14e-01) (-6.49e-04) (7.25e-01) (8.80e-01) (3.45e-01)),
  (4.60e-01, Coeffs.mk (4.10e-01) (-7.04e-04) (7.67e-01) (9.20e-01) (3.44e-01)),
  (4.55e-01, Coeffs.mk (4.08e-01) (-7.22e-04) (7.81e-01) (9.34e-01) (3.44e-01)),
  (4.40e-01, Coeffs.mk (4.04e-01) (-7.72e-04) (8.20e-01) (9.71e-01) (3.43e-01)),
  (4.35e-01, Coeffs.mk (4.03e-01) (-7.89e-04) (8.33e-01) (9.84e-01) (3.43e-01)),
  (4.20e-01, Coeffs.mk (3.99e-01) (-8.27e-04) (8.72e-01) (1.02e+00) (3.42e-01)),
  (4.17e-01, Coeffs.mk (3.99e-01) (-8.35e-04) (8.80e-01) (1.03e+00) (3.42e-01)),
  (4.00e-01, Coeffs.mk (3.94e-01) (-8.68e-04) (9.24e-01) (1.07e+00) (3.41e-01)),
  (3.85e-01, Coeffs.mk (3.90e-01) (-8.88e-04) (9.66e-01) (1.11e+00) (3.40e-01)),
  (3.80e-01, Coeffs.mk (3.89e-01) (-8.93e-04) (9.79e-01) (1.12e+00) (3.40e-01)),
  (3.70e-01, Coeffs.mk (3.86e-01) (-9.03e-04) (1.01e+00) (1.14e+00) (3.39e-01)),
  (3.60e-01, Coeffs.mk (3.83e-01) (-9.20e-04) (1.04e+00) (1.17e+00) (3.39e-01)),
  (3.57e-01, Coeffs.mk (3.82e-01) (-9.25e-04) (1.04e+00) (1.18e+00) (3.39e-01)),
  (3.45e-01, Coeffs.mk (3.78e-01) (-9.44e-04) (1.08e+00) (1.21e+00) (3.38e-01)),
  (3.40e-01, Coeffs.mk (3.77e-01) (-9.52e-04) (1.09e+00) (1.22e+00) (3.38e-01)),
  (3.33e-01, Coeffs.mk (3.75e-01) (-9.54e-04) (1.11e+00) (1.24e+00) (3.38e-01)),
  (3.20e-01, Coeffs.mk (3.71e-01) (-9.48e-04) (1.15e+00) (1.27e+00) (3.37e-01)),
  (3.17e-01, Coeffs.mk (3.70e-01) (-9.46e-04) (1.16e+00) (1.28e+00) (3.36e-01)),
  (3.03e-01, Coeffs.mk (3.65e-01) (-9.23e-04) (1.21e+00) (1.32e+00) (3.35e-01)),
  (3.00e-01, Coeffs.mk (3.64e-01) (-9.16e-04) (1.22e+00) (1.33e+00) (3.35e-01)),
  (2.90e-01, Coeffs.mk (3.60e-01) (-8.99e-04) (1.25e+00) (1.36e+00) (3.34e-01)),
  (2.80e-01, Coeffs.mk (3.57e-01) (-8.74e-04) (1.28e+00) (1.38e+00) (3.33e-01)),
  (2.78e-01, Coeffs.mk (3.56e-01) (-8.70e-04) (1.29e+00) (1.39e+00) (3.33e-01)),
  (2.63e-01, Coeffs.mk (3.50e-01) (-8.20e-04) (1.33e+00) (1.43e+00) (3.31e-01)),
  (2.60e-01, Coeffs.mk (3.48e-01) (-8.10e-04) (1.35e+00) (1.44e+00) (3.30e-01)),
  (2.50e-01, Coeffs.mk (3.45e-01) (-7.86e-04) (1.38e+00) (1.47e+00) (3.29e-01)),
  (2.40e-01, Coeffs.mk (3.41e-01) (-7.71e-04) (1.41e+00) (1.50e+00) (3.27e-01)),
  (2.38e-01, Coeffs.mk (3.40e-01) (-7.65e-04) (1.42e+00) (1.51e+00) (3.27e-01)),
  (2.27e-01, Coeffs.mk (3.35e-01) (-7.29e-04) (1.46e+00) (1.54e+00) (3.24e-01)),
  (2.20e-01, Coeffs.mk (3.31e-01) (-7.23e-04) (1.49e+00) (1.57e+00) (3.22e-01)),
  (2.17e-01, Coeffs.mk (3.30e-01) (-7.21e-04) (1.50e+00) (1.57e+00) (3.22e-01)),
  (2.08e-01, Coeffs.mk (3.27e-01) (-7.18e-04) (1.53e+00) (1.60e+00) (3.19e-01)),
  (2.00e-01, Coeffs.mk (3.23e-01) (-7.17e-04) (1.56e+00) (1.62e+00) (3.17e-01)),
  (1.90e-01, Coeffs.mk (3.20e-01) (-7.08e-04) (1.59e+00) (1.65e+00) (3.15e-01)),
  (1.90e-01, Coeffs.mk (3.19e-01) (-7.08e-04) (1.59e+00) (1.65e+00) (3.15e-01)),
  (1.82e-01, Coeffs.mk (3.15e-01) (-7.01e-04) (1.62e+00) (1.68e+00) (3.13e-01)),
  (1.80e-01, Coeffs.mk (3.14e-01) (-7.00e-04) (1.63e+00) (1.68e+00) (3.13e-01)),
  (1.74e-01, Coeffs.mk (3.11e-01) (-7.03e-04) (1.65e+00) (1.70e+00) (3.12e-01)),
  (1.70e-01, Coeffs.mk (3.09e-01) (-7.02e-04) (1.67e+00) (1.71e+00) (3.11e-01)),
  (1.67e-01, Coeffs.mk (3.08e-01) (-7.11e-04) (1.68e+00) (1.72e+00) (3.10e-01)),
  (1.60e-01, Coeffs.mk (3.05e-01) (-7.27e-04) (1.70e+00) (1.74e+00) (3.09e-01)),
  (1.54e-01, Coeffs.mk (3.03e-01) (-7.56e-04) (1.71e+00) (1.75e+00) (3.07e-01)),
  (1.50e-01, Coeffs.mk (3.02e-01) (-7.90e-04) (1.72e+00) (1.75e+00) (3.07e-01)),
  (1.48e-01, Coeffs.mk (3.02e-01) (-8.03e-04) (1.72e+00) (1.76e+00) (3.06e-01)),
  (1.43e-01, Coeffs.mk (3.01e-01) (-8.36e-04) (1.73e+00) (1.76e+00) (3.05e-01)),
  (1.40e-01, Coeffs.mk (3.00e-01) (-8.56e-04) (1.74e+00) (1.77e+00) (3.04e-01)),
  (1.38e-01, Coeffs.mk (3.00e-01) (-8.73e-04) (1.74e+00) (1.77e+00) (3.04e-01)),
  (1.33e-01, Coeffs.mk (2.98e-01) (-9.00e-04) (1.75e+00) (1.78e+00) (3.03e-01)),
  (1.30e-01, Coeffs.mk (2.97e-01) (-9.19e-04) (1.76e+00) (1.78e+00) (3.02e-01)),
  (1.29e-01, Coeffs.mk (2.97e-01) (-9.27e-04) (1.76e+00) (1.78e+00) (3.02e-01)),
  (1.25e-01, Coeffs.mk (2.96e-01) (-9.53e-04) (1.77e+00) (1.79e+00) (3.01e-01)),
  (1.20e-01, Coeffs.mk (2.94e-01) (-9.69e-04) (1.78e+00) (1.79e+00) (3.00e-01)),
  (1.18e-01, Coeffs.mk (2.94e-01) (-9.74e-04) (1.78e+00) (1.80e+00) (3.00e-01)),
  (1.11e-01, Coeffs.mk (2.93e-01) (-1.00e-03) (1.78e+00) (1.79e+00) (2.99e-01)),
  (1.10e-01, Coeffs.mk (2.93e-01) (-1.01e-03) (1.78e+00) (1.79e+00) (2.98e-01)),
  (1.05e-01, Coeffs.mk (2.93e-01) (-1.02e-03) (1.78e+00) (1.79e+00) (2.98e-01)),
  (1.00e-01, Coeffs.mk (2.93e-01) (-1.04e-03) (1.78e+00) (1.79e+00) (2.97e-01)),
  (9.52e-02, Coeffs.mk (2.92e-01) (-1.06e-03) (1.78e+00) (1.78e+00) (2.96e-01)),
  (9.09e-02, Coeffs.mk (2.93e-01) (-1.07e-03) (1.77e+00) (1.78e+00) (2.96e-01)),
  (9.00e-02, Coeffs.mk (2.93e-01) (-1.07e-03) (1.77e+00) (1.77e+00) (2.96e-01)),
  (8.70e-02, Coeffs.mk (2.93e-01) (-1.08e-03) (1.76e+00) (1.77e+00) (2.95e-01)),
  (8.50e-02, Coeffs.mk (2.94e-01) (-1.09e-03) (1.76e+00) (1.76e+00) (2.95e-01)),
  (8.33e-02, Coeffs.mk (2.94e-01) (-1.09e-03) (1.76e+00) (1.76e+00) (2.95e-01)),
  (8.00e-02, Coeffs.mk (2.95e-01) (-1.10e-03) (1.75e+00) (1.75e+00) (2.95e-01)),
  (7.69e-02, Coeffs.mk (2.95e-01) (-1.11e-03) (1.74e+00) (1.74e+00) (2.94e-01)),
  (7.50e-02, Coeffs.mk (2.96e-01) (-1.11e-03) (1.73e+00) (1.73e+00) (2.94e-01)),
  (7.41e-02, Coeffs.mk (2.96e-01) (-1.11e-03) (1.73e+00) (1.73e+00) (2.94e-01)),
  (7.14e-02, Coeffs.mk (2.97e-01) (-1.10e-03) (1.72e+00) (1.72e+00) (2.94e-01)),
  (7.00e-02, Coeffs.mk (2.98e-01) (-1.10e-03) (1.71e+00) (1.72e+00) (2.95e-01)),
  (6.90e-02, Coeffs.mk (2.98e-01) (-1.11e-03) (1.71e+00) (1.71e+00) (2.95e-01)),
  (6.67e-02, Coeffs.mk (2.99e-01) (-1.11e-03) (1.70e+00) (1.70e+00) (2.95e-01)),
  (6.50e-02, Coeffs.mk (3.00e-01) (-1.11e-03) (1.69e+00) (1.70e+00) (2.95e-01)),
  (6.25e-02, Coeffs.mk (3.01e-01) (-1.11e-03) (1.68e+00) (1.69e+00) (2.95e-01)),
  (6.00e-02, Coeffs.mk (3.02e-01) (-1.10e-03) (1.67e+00) (1.68e+00) (2.95e-01)),
  (5.88e-02, Coeffs.mk (3.02e-01) (-1.10e-03) (1.67e+00) (1.68e+00) (2.95e-01)),
  (5.56e-02, Coeffs.mk (3.03e-01) (-1.09e-03) (1.65e+00) (1.67e+00) (2.94e-01)),
  (5.30e-02, Coeffs.mk (3.03e-01) (-1.08e-03) (1.64e+00) (1.66e+00) (2.94e-01)),
  (5.00e-02, Coeffs.mk (3.04e-01) (-1.06e-03) (1.63e+00) (1.65e+00) (2.94e-01)),
  (4.55e-02, Coeffs.mk (3.05e-01) (-1.04e-03) (1.61e+00) (1.64e+00) (2.94e-01)),
  (4.00e-02, Coeffs.mk (3.06e-01) (-9.82e-04) (1.59e+00) (1.62e+00) (2.93e-01)),
  (3.57e-02, Coeffs.mk (3.07e-01) (-9.48e-04) (1.57e+00) (1.60e+00) (2.93e-01)),
  (3.40e-02, Coeffs.mk (3.08e-01) (-9.33e-04) (1.56e+00) (1.60e+00) (2.93e-01)),
  (3.23e-02, Coeffs.mk (3.09e-01) (-9.26e-04) (1.56e+00) (1.59e+00) (2.93e-01)),
  (3.00e-02, Coeffs.mk (3.10e-01) (-9.15e-04) (1.55e+00) (1.58e+00) (2.92e-01)),
  (2.94e-02, Coeffs.mk (3.10e-01) (-9.12e-04) (1.54e+00) (1.58e+00) (2.92e-01))
]

/-- The coefficient selection
`C = {5: self.COEFFS05, 20: self.COEFFS20}[imt[1]][imt]` of the source: an
unsupported damping raises `KeyError`; table row lookup is modelled as exact
period match (Modelled from the spec: the `CoeffsTable` indexing of
`nhlib.gsim.base` is not part of the sources under review), with `KeyError` on
a missing period. -/
def getCoeffs (imt : IMT) : Except PyErr Coeffs :=
  match ((match imt.damping with
          | 5 => Except.ok COEFFS05
          | 20 => Except.ok COEFFS20
          | d => Except.error ⟨"KeyError", toString d⟩) :
         Except PyErr (List (ℝ × Coeffs))) with
  | Except.error e => Except.error e
  | Except.ok table =>
    match table.find? (fun p => decide (p.1 = imt.period)) with
    | some p => Except.ok p.2
    | none => Except.error ⟨"KeyError", "imt"⟩

/-- `_compute_magnitude_scaling`: `C['a'] * rup.mag`. -/
def compute_magnitude_scaling (rup : RuptureContext) (C : Coeffs) : ℝ :=
  C.a * rup.mag

/-- `_compute_distance_scaling`: `C['b'] * dists.rhypo - np.log10(dists.rhypo)`.
The parameter is named `dists` in the source, but the only call site
(`get_mean_and_stddevs`, line 82) passes the rupture context `rup`, so Python's
dynamic attribute lookup resolves `dists.rhypo` on the rupture context; the
embedding types the parameter accordingly. -/
def compute_distance_scaling (dists : RuptureContext) (C : Coeffs) : ℝ :=
  C.b * dists.rhypo - Real.logb 10 dists.rhypo

/-- `_get_site_amplification`: per site, coefficient `c1` when
`vs30 >= 800.0` (rock) and `c2` otherwise (alluvium), via
`choice_dict = {True: C['c1'], False: C['c2']}`, in site order. -/
def get_site_amplification (sites : SitesContext) (C : Coeffs) : List ℝ :=
  sites.vs30.map (fun vs30 => if 800.0 ≤ vs30 then C.c1 else C.c2)

/-- `_get_stddevs`: per requested type, assert it is a supported type (only
`TOTAL` is; a violated assert raises `AssertionError`), collect
`C['std'] + np.zeros(num_sites)`, and return `10 ** np.array(stddevs)`. -/
def get_stddevs (C : Coeffs) (stddev_types : List StdDev) (num_sites : ℕ) :
    Except PyErr (List (List ℝ)) :=
  match stddev_types.foldr
      (fun t acc =>
        match acc with
        | Except.error e => Except.error e
        | Except.ok rows =>
          if t = StdDev.total then
            Except.ok (List.replicate num_sites C.std :: rows)
          else Except.error ⟨"AssertionError", ""⟩) (Except.ok []) with
  | Except.error e => Except.error e
  | Except.ok rows => Except.ok (rows.map (fun row => row.map (fun x => (10:ℝ) ^ x)))

/-- `get_mean_and_stddevs` of `BergeThierry2003` (lines 70-92 of the source):
coefficient lookup from the IMT, `log10_mean` as the sum of the magnitude,
distance and site-amplification terms, conversion
`mean = np.log((10 ** log10_mean) / 981.0)`, and
`stddevs = np.log(self._get_stddevs(...))`. -/
def get_mean_and_stddevs (sites : SitesContext) (rup : RuptureContext)
    (dists : DistancesContext) (imt : IMT) (stddev_types : List StdDev) :
    Except PyErr (List ℝ × List (List ℝ)) :=
  match getCoeffs imt with
  | Except.error e => Except.error e
  | Except.ok C =>
    let log10_mean := (get_site_amplification sites C).map
      (fun amp => compute_magnitude_scaling rup C +
                  compute_distance_scaling rup C + amp)
    let mean := log10_mean.map (fun x => Real.log ((10:ℝ) ^ x / 981.0))
    match get_stddevs C stddev_types sites.vs30.length with
    | Except.error e => Except.error e
    | Except.ok stddevs =>
      Except.ok (mean, stddevs.map (fun row => row.map Real.log))

end BergeThierry2003

/-- C9: two calls to `BergeThierry2003.get_mean_and_stddevs` whose arguments
differ only in the `dists` (distance context) argument return identical means
and standard deviations: the distance-scaling term is computed from the `rup`
argument (reading `rup.rhypo`), so `dists` has no influence on the result. -/
theorem claim_C9_dists_no_influence (sites : BergeThierry2003.SitesContext)
    (rup : BergeThierry2003.RuptureContext)
    (dists1 dists2 : BergeThierry2003.DistancesContext)
    (imt : BergeThierry2003.IMT) (stddev_types : List BergeThierry2003.StdDev) :
    BergeThierry2003.get_mean_and_stddevs sites rup dists1 imt stddev_types =
      BergeThierry2003.get_mean_and_stddevs sites rup dists2 imt stddev_types :=
  rfl

/-- C10: the site-amplification term of `BergeThierry2003` has one entry per
site, in site order; it is `c1` for a site whose `vs30` is at least 800 (in
particular exactly 800, classified as rock) and `c2` for a site whose `vs30`
is below 800. -/
theorem claim_C10_site_amplification (sites : BergeThierry2003.SitesContext)
    (C : BergeThierry2003.Coeffs) (i : ℕ) (hi : i < sites.vs30.length) :
    (BergeThierry2003.get_site_amplification sites C).length = sites.vs30.length ∧
    (800 ≤ sites.vs30.getD i 0 →
      (BergeThierry2003.get_site_amplification sites C).getD i 0 = C.c1) ∧
    (sites.vs30.getD i 0 < 800 →
      (BergeThierry2003.get_site_amplification sites C).getD i 0 = C.c2) ∧
    (sites.vs30.getD i 0 = 800 →
      (BergeThierry2003.get_site_amplification sites C).getD i 0 = C.c1) := by
  have h800 : (800.0 : ℝ) = 800 := by norm_num
  have hlen : (BergeThierry2003.get_site_amplification sites C).length =
      sites.vs30.length := by
    simp [BergeThierry2003.get_site_amplification]
  have hi' : i < (BergeThierry2003.get_site_amplification sites C).length := by
    rw [hlen]; exact hi
  have hval : (BergeThierry2003.get_site_amplification sites C).getD i 0 =
      if 800 ≤ sites.vs30.getD i 0 then C.c1 else C.c2 := by
    rw [List.getD_eq_getElem _ _ hi', List.getD_eq_getElem _ _ hi]
    simp [BergeThierry2003.get_site_amplification, h800]
  refine ⟨hlen, ?_, ?_, ?_⟩
  · intro h
    rw [hval, if_pos h]
  · intro h
    rw [hval, if_neg (not_le.mpr h)]
  · intro h
    rw [hval, if_pos (le_of_eq h.symm)]

/-- Witness for C10: on the site collection with `vs30 = [800, 300]` and
coefficients `c1 = 3`, `c2 = 4`, site 0 (with `vs30` exactly 800) gets `c1`
and site 1 gets `c2`. -/
theorem claim_C10_site_amplification_w :
    (BergeThierry2003.get_site_amplification ⟨[800, 300]⟩
      (BergeThierry2003.Coeffs.mk 1 2 3 4 5)).getD 0 0 =
      (BergeThierry2003.Coeffs.mk 1 2 3 4 5).c1 ∧
    (BergeThierry2003.get_site_amplification ⟨[800, 300]⟩
      (BergeThierry2003.Coeffs.mk 1 2 3 4 5)).getD 1 0 =
      (BergeThierry2003.Coeffs.mk 1 2 3 4 5).c2 :=
  ⟨(claim_C10_site_amplification ⟨[800, 300]⟩ _ 0 (by norm_num)).2.2.2
      (by norm_num [List.getD_cons_zero]),
   (claim_C10_site_amplification ⟨[800, 300]⟩ _ 1 (by norm_num)).2.2.1
      (by norm_num [List.getD_cons_succ, List.getD_cons_zero])⟩

/-- Processing a concatenation of source pairs processes the prefix first and
continues with the suffix only if the prefix succeeded. -/
theorem foldSources_append {γ : Type} (cfg : Cfg γ) (curves : List Mat)
    (l₁ l₂ : List (Source × List ℕ)) :
    foldSources cfg curves (l₁ ++ l₂) =
      match foldSources cfg curves l₁ with
      | Except.ok c => foldSources cfg c l₂
      | Except.error e => Except.error e := by
  induction l₁ generalizing curves with
  | nil => simp [foldSources]
  | cons p rest ih =>
    rw [List.cons_append]
    simp only [foldSources]
    cases h : innerSource cfg curves p.1 p.2 with
    | error e => simp
    | ok c => exact ih c

/-- Processing a concatenation of rupture pairs processes the prefix first and
continues with the suffix only if the prefix succeeded. -/
theorem foldRuptures_append {γ : Type} (cfg : Cfg γ) (curves : List Mat)
    (l₁ l₂ : List (Rupture × List ℕ)) :
    foldRuptures cfg curves (l₁ ++ l₂) =
      match foldRuptures cfg curves l₁ with
      | Except.ok c => foldRuptures cfg c l₂
      | Except.error e => Except.error e := by
  induction l₁ generalizing curves with
  | nil => simp [foldRuptures]
  | cons pair rest ih =>
    rw [List.cons_append]
    simp only [foldRuptures]
    cases h1 : pair.1.get_probability_one_or_more_occurrences with
    | error e => simp
    | ok prob =>
      cases h2 : gsimLookup cfg.gsims pair.1.tectonic_region_type with
      | error e => simp [h1]
      | ok g =>
        cases h3 : g.make_contexts pair.2 pair.1 with
        | error e => simp [h1, h2, h3]
        | ok ctx =>
          cases h4 : foldIMTs cfg g ctx prob pair.2 (cfg.imts.zip curves) with
          | error e => simp [h1, h2, h3, h4]
          | ok curves' =>
            simp only [h1, h2, h3, h4]
            exact ih curves'

/-- C6: if the computation reaches a source whose processing (rupture
enumeration, occurrence-probability computation, model lookup, context
building, or exceedance-probability computation) raises any exception, the
aggregator raises a single `RuntimeError` whose message contains that source's
identifier and the original error's message, and the computation halts with no
partial result. -/
theorem claim_C6_error_wrapping {γ : Type} (sources : List Source) (total : ℕ)
    (imts : List (String × List ℝ)) (T : ℝ) (gsims : List (String × Gsim γ))
    (tl : ℝ)
    (ssf : List (Source × List ℕ) → Except PyErr (List (Source × List ℕ)))
    (rsf : List (Rupture × List ℕ) → Except PyErr (List (Rupture × List ℕ)))
    (cav : ℝ) (pairs l₁ l₂ : List (Source × List ℕ)) (s : Source)
    (ss : List ℕ) (c : List Mat) (e : PyErr)
    (hss : ssf (sources.map (fun s => (s, List.range total))) = Except.ok pairs)
    (hsplit : pairs = l₁ ++ (s, ss) :: l₂)
    (hpre : foldSources ⟨gsims, imts, total, T, tl, cav, rsf⟩
      (initCurves imts total) l₁ = Except.ok c)
    (hfail : innerSource ⟨gsims, imts, total, T, tl, cav, rsf⟩ c s ss =
      Except.error e) :
    hazard_curves_poissonian sources total imts T gsims tl ssf rsf cav =
      Except.error (sourceErr s.source_id e) ∧
    (sourceErr s.source_id e).name = "RuntimeError" ∧
    (∃ u v, (sourceErr s.source_id e).message = u ++ s.source_id ++ v) ∧
    (∃ u, (sourceErr s.source_id e).message = u ++ e.message) ∧
    ∀ out, hazard_curves_poissonian sources total imts T gsims tl ssf rsf cav ≠
      Except.ok out := by
  have hrun : hazard_curves_poissonian sources total imts T gsims tl ssf rsf cav =
      Except.error (sourceErr s.source_id e) := by
    simp only [hazard_curves_poissonian, hss, hsplit, foldSources_append, hpre]
    simp only [foldSources, hfail]
  refine ⟨hrun, rfl,
    ⟨"An error occurred with source id=", ". Error: " ++ e.message, ?_⟩,
    ⟨"An error occurred with source id=" ++ s.source_id ++ ". Error: ", ?_⟩, ?_⟩
  · simp [sourceErr, String.append_assoc]
  · simp [sourceErr, String.append_assoc]
  · intro out h
    rw [hrun] at h
    exact Except.noConfusion h

/-- Witness for C6: one source whose ground-motion model raises a `ValueError`
while computing exceedance probabilities; the aggregator raises a
`RuntimeError` naming the source. -/
theorem claim_C6_error_wrapping_w :
    hazard_curves_poissonian [srcA] 1 imtsW 50 gsimsF 3
      source_site_noop_filter rupture_site_noop_filter 0 =
      Except.error (sourceErr srcA.source_id ⟨"ValueError", "bad value"⟩) :=
  (claim_C6_error_wrapping [srcA] 1 imtsW 50 gsimsF 3
    source_site_noop_filter rupture_site_noop_filter 0
    [(srcA, List.range 1)] [] [] srcA (List.range 1) (initCurves imtsW 1)
    ⟨"ValueError", "bad value"⟩ rfl rfl rfl rfl).1

/-- C7 counterexample: with a rupture whose tectonic region type `X` has no
entry in the gsims mapping, the aggregator raises a `RuntimeError` (wrapping
the dictionary `KeyError`), not a `ConfigurationError` or an
`UnsupportedTectonicRegionError`. -/
theorem claim_C7_counterexample :
    hazard_curves_poissonian (γ := Unit) [srcX] 1 imtsW 50 [] 3
        source_site_noop_filter rupture_site_noop_filter 0 =
      Except.error ⟨"RuntimeError", "An error occurred with source id=s7. Error: X"⟩ ∧
    ¬ ∃ e, hazard_curves_poissonian (γ := Unit) [srcX] 1 imtsW 50 [] 3
        source_site_noop_filter rupture_site_noop_filter 0 = Except.error e ∧
      (e.name = "ConfigurationError" ∨ e.name = "UnsupportedTectonicRegionError") := by
  have h : hazard_curves_poissonian (γ := Unit) [srcX] 1 imtsW 50 [] 3
      source_site_noop_filter rupture_site_noop_filter 0 =
      Except.error ⟨"RuntimeError", "An error occurred with source id=s7. Error: X"⟩ :=
    rfl
  refine ⟨h, ?_⟩
  rintro ⟨e, he, hn⟩
  rw [h] at he
  have he' : (⟨"RuntimeError", "An error occurred with source id=s7. Error: X"⟩ :
      PyErr) = e := by
    injection he
  subst he'
  rcases hn with hn | hn <;> exact absurd hn (by decide)

/-- C7 amended: if the computation reaches a surviving rupture whose
tectonic-region-type has no entry in the gsims mapping, the aggregator raises
a `RuntimeError` wrapping the `KeyError` — its message carries the source
identifier and the missing tectonic region type — and no partial curve is
returned. -/
theorem claim_C7_amended {γ : Type} (sources : List Source) (total : ℕ)
    (imts : List (String × List ℝ)) (T : ℝ) (gsims : List (String × Gsim γ))
    (tl : ℝ)
    (ssf : List (Source × List ℕ) → Except PyErr (List (Source × List ℕ)))
    (rsf : List (Rupture × List ℕ) → Except PyErr (List (Rupture × List ℕ)))
    (cav : ℝ) (pairs l₁ l₂ : List (Source × List ℕ)) (s : Source)
    (ss : List ℕ) (c c' : List Mat) (rups : List Rupture)
    (rpairs rl₁ rl₂ : List (Rupture × List ℕ)) (r : Rupture) (rs : List ℕ)
    (p : ℝ)
    (hss : ssf (sources.map (fun s => (s, List.range total))) = Except.ok pairs)
    (hsplit : pairs = l₁ ++ (s, ss) :: l₂)
    (hpre : foldSources ⟨gsims, imts, total, T, tl, cav, rsf⟩
      (initCurves imts total) l₁ = Except.ok c)
    (hrups : s.iter_ruptures T = Except.ok rups)
    (hrsf : rsf (rups.map (fun r => (r, ss))) = Except.ok rpairs)
    (hrsplit : rpairs = rl₁ ++ (r, rs) :: rl₂)
    (hrpre : foldRuptures ⟨gsims, imts, total, T, tl, cav, rsf⟩ c rl₁ =
      Except.ok c')
    (hprob : r.get_probability_one_or_more_occurrences = Except.ok p)
    (hmiss : List.lookup r.tectonic_region_type gsims = none) :
    hazard_curves_poissonian sources total imts T gsims tl ssf rsf cav =
      Except.error (sourceErr s.source_id ⟨"KeyError", r.tectonic_region_type⟩) ∧
    (sourceErr s.source_id ⟨"KeyError", r.tectonic_region_type⟩).name =
      "RuntimeError" ∧
    (∃ u, (sourceErr s.source_id ⟨"KeyError", r.tectonic_region_type⟩).message =
      u ++ r.tectonic_region_type) ∧
    ∀ out, hazard_curves_poissonian sources total imts T gsims tl ssf rsf cav ≠
      Except.ok out := by
  have hrun : hazard_curves_poissonian sources total imts T gsims tl ssf rsf cav =
      Except.error (sourceErr s.source_id ⟨"KeyError", r.tectonic_region_type⟩) := by
    simp only [hazard_curves_poissonian, hss, hsplit, foldSources_append, hpre]
    simp only [foldSources, innerSource, hrups, hrsf, hrsplit,
      foldRuptures_append, hrpre]
    simp only [foldRuptures, hprob, gsimLookup, hmiss]
  refine ⟨hrun, rfl,
    ⟨"An error occurred with source id=" ++ s.source_id ++ ". Error: ", ?_⟩, ?_⟩
  · simp [sourceErr, String.append_assoc]
  · intro out h
    rw [hrun] at h
    exact Except.noConfusion h

/-- Witness for the amended C7: the concrete missing-`X` scenario of the
counterexample, reached through the general theorem. -/
theorem claim_C7_amended_w :
    hazard_curves_poissonian (γ := Unit) [srcX] 1 imtsW 50 [] 3
      source_site_noop_filter rupture_site_noop_filter 0 =
      Except.error (sourceErr srcX.source_id
        ⟨"KeyError", rupX.tectonic_region_type⟩) :=
  (claim_C7_amended [srcX] 1 imtsW 50 [] 3
    source_site_noop_filter rupture_site_noop_filter 0
    [(srcX, List.range 1)] [] [] srcX (List.range 1)
    (initCurves imtsW 1) (initCurves imtsW 1) [rupX]
    [(rupX, List.range 1)] [] [] rupX (List.range 1) 0.1
    rfl rfl rfl rfl rfl rfl rfl rfl rfl).1

/-- C8: filtering errors are never swallowed.  A source-site filter error is
raised outside the per-source `try` block and propagates to the caller
unchanged; a rupture-site filter error is raised inside it and propagates
wrapped with the offending source's identifier, its message preserved.  In
both cases no curves are returned. -/
theorem claim_C8_filter_error_propagation {γ : Type} (sources : List Source)
    (total : ℕ) (imts : List (String × List ℝ)) (T : ℝ)
    (gsims : List (String × Gsim γ)) (tl : ℝ) (cav : ℝ) :
    (∀ (ssf : List (Source × List ℕ) → Except PyErr (List (Source × List ℕ)))
       (rsf : List (Rupture × List ℕ) → Except PyErr (List (Rupture × List ℕ)))
       (e : PyErr),
       ssf (sources.map (fun s => (s, List.range total))) = Except.error e →
       hazard_curves_poissonian sources total imts T gsims tl ssf rsf cav =
         Except.error e) ∧
    (∀ (ssf : List (Source × List ℕ) → Except PyErr (List (Source × List ℕ)))
       (rsf : List (Rupture × List ℕ) → Except PyErr (List (Rupture × List ℕ)))
       (pairs l₁ l₂ : List (Source × List ℕ)) (s : Source) (ss : List ℕ)
       (c : List Mat) (rups : List Rupture) (e : PyErr),
       ssf (sources.map (fun s => (s, List.range total))) = Except.ok pairs →
       pairs = l₁ ++ (s, ss) :: l₂ →
       foldSources ⟨gsims, imts, total, T, tl, cav, rsf⟩
         (initCurves imts total) l₁ = Except.ok c →
       s.iter_ruptures T = Except.ok rups →
       rsf (rups.map (fun r => (r, ss))) = Except.error e →
       hazard_curves_poissonian sources total imts T gsims tl ssf rsf cav =
         Except.error (sourceErr s.source_id e) ∧
       ∃ u, (sourceErr s.source_id e).message = u ++ e.message) := by
  constructor
  · intro ssf rsf e h
    simp only [hazard_curves_poissonian, h]
  · intro ssf rsf pairs l₁ l₂ s ss c rups e hss hsplit hpre hrups hrsf
    have hrun : hazard_curves_poissonian sources total imts T gsims tl ssf rsf cav =
        Except.error (sourceErr s.source_id e) := by
      simp only [hazard_curves_poissonian, hss, hsplit, foldSources_append, hpre]
      simp only [foldSources, innerSource, hrups, hrsf]
    exact ⟨hrun,
      ⟨"An error occurred with source id=" ++ s.source_id ++ ". Error: ",
       by simp [sourceErr, String.append_assoc]⟩⟩

/-- Witness for C8: a failing source-site filter's `FilterError` surfaces
unchanged; a failing rupture-site filter's `FilterError` surfaces wrapped with
the source id. -/
theorem claim_C8_filter_error_propagation_w :
    hazard_curves_poissonian [srcA] 1 imtsW 50 gsimsW 3
      badSourceSiteFilter rupture_site_noop_filter 0 =
      Except.error filterErr ∧
    hazard_curves_poissonian [srcA] 1 imtsW 50 gsimsW 3
      source_site_noop_filter badRuptureSiteFilter 0 =
      Except.error (sourceErr srcA.source_id filterErr) :=
  ⟨(claim_C8_filter_error_propagation [srcA] 1 imtsW 50 gsimsW 3 0).1
      badSourceSiteFilter rupture_site_noop_filter filterErr rfl,
   ((claim_C8_filter_error_propagation [srcA] 1 imtsW 50 gsimsW 3 0).2
      source_site_noop_filter badRuptureSiteFilter
      [(srcA, List.range 1)] [] [] srcA (List.range 1)
      (initCurves imtsW 1) [rupA] filterErr rfl rfl rfl rfl rfl).1⟩

/-- Reflexivity of pointwise `≤` on matrices. -/
theorem matLE_refl (m : Mat) : matLE m m :=
  List.forall₂_same.mpr (fun row _ => List.forall₂_same.mpr (fun x _ => le_refl x))

/-- Transitivity of `Forall₂` along a transitive relation. -/
theorem forall₂_trans_of_trans {α : Type} {R : α → α → Prop}
    (ht : ∀ a b c, R a b → R b c → R a c) :
    ∀ {a b c : List α}, List.Forall₂ R a b → List.Forall₂ R b c →
      List.Forall₂ R a c := by
  intro a b c h1
  induction h1 generalizing c with
  | nil => intro h2; cases h2; exact List.Forall₂.nil
  | cons hab _ ih =>
    intro h2
    cases h2 with
    | cons hbc h2' => exact List.Forall₂.cons (ht _ _ _ hab hbc) (ih h2')

/-- Transitivity of pointwise `≤` on matrices. -/
theorem matLE_trans {a b c : Mat} (h1 : matLE a b) (h2 : matLE b c) : matLE a c :=
  @forall₂_trans_of_trans (List ℝ) (List.Forall₂ (fun x y => x ≤ y))
    (fun _ _ _ hab hbc =>
      @forall₂_trans_of_trans ℝ (fun x y => x ≤ y)
        (fun _ _ _ hx hy => le_trans hx hy) _ _ _ hab hbc)
    a b c h1 h2

/-- Reflexivity of pointwise `≤` on accumulator families. -/
theorem curvesLE_refl (cs : List Mat) : curvesLE cs cs :=
  List.forall₂_same.mpr (fun m _ => matLE_refl m)

/-- Transitivity of pointwise `≤` on accumulator families. -/
theorem curvesLE_trans {a b c : List Mat} (h1 : curvesLE a b)
    (h2 : curvesLE b c) : curvesLE a c :=
  @forall₂_trans_of_trans Mat matLE (fun _ _ _ hx hy => matLE_trans hx hy)
    a b c h1 h2

/-- A `Forall₂` relation reaches every element of its right list. -/
theorem forall₂_mem_right {α β : Type} {R : α → β → Prop} {l₁ : List α}
    {l₂ : List β} (h : List.Forall₂ R l₁ l₂) : ∀ b ∈ l₂, ∃ a ∈ l₁, R a b := by
  induction h with
  | nil => intro b hb; exact absurd hb (List.not_mem_nil b)
  | cons hab _ ih =>
    intro b hb
    rcases List.mem_cons.mp hb with rfl | hb'
    · exact ⟨_, by simp, hab⟩
    · obtain ⟨a, ha, hr⟩ := ih b hb'
      exact ⟨a, by simp [ha], hr⟩

/-- The per-rupture factor entries lie in [0, 1] when the occurrence and
exceedance probabilities do. -/
theorem poeFactor_in01 (prob : ℝ) (poes : Mat) (h0 : 0 ≤ prob) (h1 : prob ≤ 1)
    (hm : matIn01 poes) : matIn01 (poeFactor prob poes) := by
  intro row hrow
  obtain ⟨row₀, hrow₀, rfl⟩ := List.mem_map.mp hrow
  intro x hx
  obtain ⟨p, hp, rfl⟩ := List.mem_map.mp hx
  have hp01 := hm row₀ hrow₀ p hp
  exact ⟨Real.rpow_nonneg (by linarith) _,
    Real.rpow_le_one (by linarith) (by linarith) hp01.1⟩

/-- The per-rupture factor rows keep the widths of the `poes` rows. -/
theorem poeFactor_widths (prob : ℝ) (poes : Mat) (L : ℕ)
    (hw : ∀ row ∈ poes, row.length = L) :
    ∀ row ∈ poeFactor prob poes, row.length = L := by
  intro row hrow
  obtain ⟨row₀, hrow₀, rfl⟩ := List.mem_map.mp hrow
  simpa using hw row₀ hrow₀

/-- Every row of an expansion is a row of the dense array or the
all-placeholder row. -/
theorem expand_row_mem (ind : List ℕ) (arr : Mat) (total L : ℕ) :
    ∀ row ∈ expand ind arr total L, row ∈ arr ∨ row = List.replicate L 1 := by
  intro row hrow
  obtain ⟨i, _, hrow⟩ := List.mem_map.mp hrow
  by_cases h : ind.indexOf i < arr.length
  · left
    rw [← hrow]
    simp only [h, if_true]
    rw [List.getD_eq_getElem _ _ h]
    exact List.getElem_mem h
  · right
    rw [← hrow]
    simp [h]

/-- Expansion with placeholder 1 keeps entries in [0, 1]. -/
theorem expand_in01 (ind : List ℕ) (arr : Mat) (total L : ℕ)
    (ha : matIn01 arr) : matIn01 (expand ind arr total L) := by
  intro row hrow
  rcases expand_row_mem ind arr total L row hrow with h | rfl
  · exact ha row h
  · intro x hx
    rw [List.eq_of_mem_replicate hx]
    exact ⟨zero_le_one, le_refl 1⟩

/-- Expansion keeps the accumulator's row width. -/
theorem expand_widths (ind : List ℕ) (arr : Mat) (total L : ℕ)
    (hw : ∀ row ∈ arr, row.length = L) :
    ∀ row ∈ expand ind arr total L, row.length = L := by
  intro row hrow
  rcases expand_row_mem ind arr total L row hrow with h | rfl
  · exact hw row h
  · simp

/-- Expansion always has one row per site of the full collection. -/
theorem expand_length (ind : List ℕ) (arr : Mat) (total L : ℕ) :
    (expand ind arr total L).length = total := by
  simp [expand]

/-- Elementwise product of rows with entries in [0, 1]: the result stays in
[0, 1] and, for rows of equal length, is pointwise at most the first row. -/
theorem row_mul_bounds : ∀ (r s : List ℝ), rowIn01 r → rowIn01 s →
    rowIn01 (List.zipWith (fun x y => x * y) r s) ∧
    (s.length = r.length →
      List.Forall₂ (fun x y => x ≤ y) (List.zipWith (fun x y => x * y) r s) r)
  | [], s, _, _ => by
    constructor
    · intro x hx; simp at hx
    · intro h
      have : s = [] := List.length_eq_zero.mp h
      subst this
      exact List.Forall₂.nil
  | a :: t, [], _, _ => by
    constructor
    · intro x hx; simp at hx
    · intro h; simp at h
  | a :: t, b :: u, hr, hs => by
    have ha := hr a (by simp)
    have hb := hs b (by simp)
    have iht := row_mul_bounds t u (fun x hx => hr x (by simp [hx]))
      (fun x hx => hs x (by simp [hx]))
    constructor
    · intro x hx
      rw [List.zipWith_cons_cons] at hx
      rcases List.mem_cons.mp hx with rfl | hx'
      · exact ⟨mul_nonneg ha.1 hb.1, mul_le_one₀ ha.2 hb.1 hb.2⟩
      · exact iht.1 x hx'
    · intro h
      rw [List.zipWith_cons_cons]
      exact List.Forall₂.cons (mul_le_of_le_one_right ha.1 hb.2)
        (iht.2 (by simpa using h))

/-- Elementwise product of two matrices of the same shape with entries in
[0, 1]: shape preserved, entries in [0, 1], and pointwise at most the first
factor. -/
theorem matMul_bounds : ∀ (a b : Mat) (L : ℕ), b.length = a.length →
    (∀ row ∈ a, row.length = L) → (∀ row ∈ b, row.length = L) →
    matIn01 a → matIn01 b →
    ((matMul a b).length = a.length ∧ ∀ row ∈ matMul a b, row.length = L) ∧
    matIn01 (matMul a b) ∧ matLE (matMul a b) a
  | [], [], L, _, _, _, _, _ => by
    refine ⟨⟨rfl, ?_⟩, ?_, List.Forall₂.nil⟩ <;> intro row hrow <;>
      simp [matMul] at hrow
  | [], r :: _, L, h, _, _, _, _ => by simp at h
  | r :: _, [], L, h, _, _, _, _ => by simp at h
  | r :: t, s :: u, L, hlen, hwa, hwb, ha, hb => by
    have hr := ha r (by simp)
    have hs := hb s (by simp)
    have hwr := hwa r (by simp)
    have hws := hwb s (by simp)
    have hrow := row_mul_bounds r s hr hs
    have iht := matMul_bounds t u L (by simpa using hlen)
      (fun row h => hwa row (by simp [h])) (fun row h => hwb row (by simp [h]))
      (fun row h => ha row (by simp [h])) (fun row h => hb row (by simp [h]))
    have hmm : matMul (r :: t) (s :: u) =
        List.zipWith (fun x y => x * y) r s :: matMul t u := by
      simp [matMul]
    refine ⟨⟨?_, ?_⟩, ?_, ?_⟩
    · rw [hmm, List.length_cons, iht.1.1, List.length_cons]
    · intro row hrow'
      rw [hmm] at hrow'
      rcases List.mem_cons.mp hrow' with rfl | h'
      · rw [List.length_zipWith, hwr, hws]; exact Nat.min_self L
      · exact iht.1.2 row h'
    · intro row hrow'
      rw [hmm] at hrow'
      rcases List.mem_cons.mp hrow' with rfl | h'
      · exact hrow.1
      · exact iht.2.1 row h'
    · rw [hmm]
      exact List.Forall₂.cons (hrow.2 (by rw [hwr, hws])) iht.2.2

/-- One accumulator update keeps the shape, keeps every entry in [0, 1], and
never increases any entry, provided the occurrence and exceedance
probabilities are probabilities. -/
theorem curveStep_bounds (cur poes : Mat) (r_sites : List ℕ) (prob : ℝ)
    (total L : ℕ) (hshape : matShape cur total L) (hcur : matIn01 cur)
    (h0 : 0 ≤ prob) (h1 : prob ≤ 1) (hpo : matIn01 poes)
    (hpw : ∀ row ∈ poes, row.length = L) :
    matShape (curveStep cur r_sites prob poes total L) total L ∧
    matIn01 (curveStep cur r_sites prob poes total L) ∧
    matLE (curveStep cur r_sites prob poes total L) cur := by
  have hf01 := expand_in01 r_sites (poeFactor prob poes) total L
    (poeFactor_in01 prob poes h0 h1 hpo)
  have hfw := expand_widths r_sites (poeFactor prob poes) total L
    (poeFactor_widths prob poes L hpw)
  have hfl := expand_length r_sites (poeFactor prob poes) total L
  have h := matMul_bounds cur (expand r_sites (poeFactor prob poes) total L) L
    (by rw [hfl, hshape.1]) hshape.2 hfw hcur hf01
  exact ⟨⟨by rw [curveStep, h.1.1, hshape.1], h.1.2⟩, h.2.1, h.2.2⟩

/-- The `for imt in imts` loop keeps the accumulator invariant and never
increases an accumulator entry. -/
theorem foldIMTs_inv {γ : Type} (cfg : Cfg γ) (g : Gsim γ) (ctx : γ)
    (prob : ℝ) (r_sites : List ℕ) (hg : GoodGsim g) (h0 : 0 ≤ prob)
    (h1 : prob ≤ 1) :
    ∀ (imts : List (String × List ℝ)) (cs ms : List Mat),
    curvesOK imts cfg.total_sites cs →
    foldIMTs cfg g ctx prob r_sites (imts.zip cs) = Except.ok ms →
    curvesOK imts cfg.total_sites ms ∧ curvesLE ms cs
  | [], cs, ms, hok, h => by
    cases hok
    simp only [List.zip_nil_left, foldIMTs] at h
    injection h with h'
    subst h'
    exact ⟨List.Forall₂.nil, List.Forall₂.nil⟩
  | p :: pt, [], ms, hok, h => by cases hok
  | p :: pt, c :: ct, ms, hok, h => by
    have hpc := (List.forall₂_cons.mp hok).1
    have hrest := (List.forall₂_cons.mp hok).2
    rw [List.zip_cons_cons] at h
    simp only [foldIMTs] at h
    cases hpo : g.get_poes_cav ctx p.1 p.2 cfg.truncation_level cfg.cav_min with
    | error e => simp only [hpo] at h; exact Except.noConfusion h
    | ok poes =>
      simp only [hpo] at h
      cases hrec : foldIMTs cfg g ctx prob r_sites (pt.zip ct) with
      | error e => simp only [hrec] at h; exact Except.noConfusion h
      | ok ms' =>
        simp only [hrec] at h
        have hms : ms = curveStep c r_sites prob poes cfg.total_sites
            p.2.length :: ms' := by
          injection h with h'
          exact h'.symm
        subst hms
        have hgp := hg ctx p.1 p.2 cfg.truncation_level cfg.cav_min poes hpo
        have hstep := curveStep_bounds c poes r_sites prob cfg.total_sites
          p.2.length hpc.1 hpc.2 h0 h1 hgp.1 hgp.2
        have iht := foldIMTs_inv cfg g ctx prob r_sites hg h0 h1 pt ct ms'
          hrest hrec
        exact ⟨List.forall₂_cons.mpr ⟨⟨hstep.1, hstep.2.1⟩, iht.1⟩,
          List.forall₂_cons.mpr ⟨hstep.2.2, iht.2⟩⟩

/-- A successful model lookup returns a model of the mapping. -/
theorem gsimLookup_mem {γ : Type} :
    ∀ (gsims : List (String × Gsim γ)) (trt : String) (g : Gsim γ),
    gsimLookup gsims trt = Except.ok g → ∃ pr ∈ gsims, pr.2 = g
  | [], trt, g, h => by simp [gsimLookup, List.lookup] at h
  | p :: t, trt, g, h => by
    obtain ⟨k, v⟩ := p
    unfold gsimLookup at h
    rw [List.lookup_cons] at h
    cases hbeq : (trt == k) with
    | true =>
      rw [hbeq] at h
      refine ⟨(k, v), by simp, ?_⟩
      simpa using h
    | false =>
      rw [hbeq] at h
      obtain ⟨pr, hpr, rfl⟩ := gsimLookup_mem t trt g h
      exact ⟨pr, by simp [hpr], rfl⟩

/-- The per-rupture loop keeps the accumulator invariant and never increases
an accumulator entry, for well-behaved models and ruptures. -/
theorem foldRuptures_inv {γ : Type} (cfg : Cfg γ)
    (hgs : ∀ pr ∈ cfg.gsims, GoodGsim pr.2) :
    ∀ (pairs : List (Rupture × List ℕ)) (cs ms : List Mat),
    (∀ pr ∈ pairs, GoodRupture pr.1) →
    curvesOK cfg.imts cfg.total_sites cs →
    foldRuptures cfg cs pairs = Except.ok ms →
    curvesOK cfg.imts cfg.total_sites ms ∧ curvesLE ms cs
  | [], cs, ms, _, hok, h => by
    simp only [foldRuptures] at h
    injection h with h'
    subst h'
    exact ⟨hok, curvesLE_refl cs⟩
  | pair :: rest, cs, ms, hgr, hok, h => by
    simp only [foldRuptures] at h
    cases hprob : pair.1.get_probability_one_or_more_occurrences with
    | error e => simp only [hprob] at h; exact Except.noConfusion h
    | ok prob =>
      simp only [hprob] at h
      cases hlk : gsimLookup cfg.gsims pair.1.tectonic_region_type with
      | error e => simp only [hlk] at h; exact Except.noConfusion h
      | ok g =>
        simp only [hlk] at h
        cases hctx : g.make_contexts pair.2 pair.1 with
        | error e => simp only [hctx] at h; exact Except.noConfusion h
        | ok ctx =>
          simp only [hctx] at h
          cases hfi : foldIMTs cfg g ctx prob pair.2 (cfg.imts.zip cs) with
          | error e => simp only [hfi] at h; exact Except.noConfusion h
          | ok cs' =>
            simp only [hfi] at h
            have hp01 := hgr pair (by simp) prob hprob
            obtain ⟨pr, hprm, rfl⟩ :=
              gsimLookup_mem cfg.gsims pair.1.tectonic_region_type g hlk
            have hGg : GoodGsim pr.2 := hgs pr hprm
            have hstep := foldIMTs_inv cfg pr.2 ctx prob pair.2 hGg hp01.1
              hp01.2 cfg.imts cs cs' hok hfi
            have iht := foldRuptures_inv cfg hgs rest cs' ms
              (fun q hq => hgr q (by simp [hq])) hstep.1 h
            exact ⟨iht.1, curvesLE_trans iht.2 hstep.2⟩

/-- Processing one source keeps the accumulator invariant and never increases
an accumulator entry. -/
theorem innerSource_inv {γ : Type} (cfg : Cfg γ)
    (hgs : ∀ pr ∈ cfg.gsims, GoodGsim pr.2)
    (hrs : ∀ inp out, cfg.rupture_site_filter inp = Except.ok out →
      ∀ p ∈ out, ∃ q ∈ inp, p.1 = q.1)
    (s : Source) (ss : List ℕ) (cs ms : List Mat)
    (hsrc : GoodSource s cfg.time_span)
    (hok : curvesOK cfg.imts cfg.total_sites cs)
    (h : innerSource cfg cs s ss = Except.ok ms) :
    curvesOK cfg.imts cfg.total_sites ms ∧ curvesLE ms cs := by
  unfold innerSource at h
  cases hit : s.iter_ruptures cfg.time_span with
  | error e => simp only [hit] at h; exact Except.noConfusion h
  | ok rups =>
    simp only [hit] at h
    cases hfl : cfg.rupture_site_filter (rups.map (fun r => (r, ss))) with
    | error e => simp only [hfl] at h; exact Except.noConfusion h
    | ok pairs =>
      simp only [hfl] at h
      refine foldRuptures_inv cfg hgs pairs cs ms ?_ hok h
      intro pr hpr
      obtain ⟨q, hq, hpq⟩ := hrs _ _ hfl pr hpr
      obtain ⟨r, hr, rfl⟩ := List.mem_map.mp hq
      rw [show pr.1 = r from hpq]
      exact hsrc rups hit r hr

/-- The source loop keeps the accumulator invariant and never increases an
accumulator entry. -/
theorem foldSources_inv {γ : Type} (cfg : Cfg γ)
    (hgs : ∀ pr ∈ cfg.gsims, GoodGsim pr.2)
    (hrs : ∀ inp out, cfg.rupture_site_filter inp = Except.ok out →
      ∀ p ∈ out, ∃ q ∈ inp, p.1 = q.1) :
    ∀ (l : List (Source × List ℕ)) (cs ms : List Mat),
    (∀ p ∈ l, GoodSource p.1 cfg.time_span) →
    curvesOK cfg.imts cfg.total_sites cs →
    foldSources cfg cs l = Except.ok ms →
    curvesOK cfg.imts cfg.total_sites ms ∧ curvesLE ms cs
  | [], cs, ms, _, hok, h => by
    simp only [foldSources] at h
    injection h with h'
    subst h'
    exact ⟨hok, curvesLE_refl cs⟩
  | p :: rest, cs, ms, hgood, hok, h => by
    simp only [foldSources] at h
    cases hin : innerSource cfg cs p.1 p.2 with
    | error e => simp only [hin] at h; exact Except.noConfusion h
    | ok c =>
      simp only [hin] at h
      have hstep := innerSource_inv cfg hgs hrs p.1 p.2 cs c
        (hgood p (by simp)) hok hin
      have iht := foldSources_inv cfg hgs hrs rest c ms
        (fun q hq => hgood q (by simp [hq])) hstep.1 h
      exact ⟨iht.1, curvesLE_trans iht.2 hstep.2⟩

/-- The initial all-ones accumulators satisfy the accumulator invariant. -/
theorem initCurves_OK (imts : List (String × List ℝ)) (total : ℕ) :
    curvesOK imts total (initCurves imts total) := by
  unfold curvesOK initCurves
  rw [List.forall₂_map_right_iff]
  refine List.forall₂_same.mpr (fun p _ => ⟨⟨by simp, ?_⟩, ?_⟩)
  · intro row hrow
    rw [List.eq_of_mem_replicate hrow]
    simp
  · intro row hrow
    rw [List.eq_of_mem_replicate hrow]
    intro x hx
    rw [List.eq_of_mem_replicate hx]
    exact ⟨zero_le_one, le_refl 1⟩

/-- C4: when the ground-motion models return exceedance probabilities in
[0, 1] (with one column per level), every rupture occurrence probability lies
in [0, 1], and the filters honour the pair-stream contract, then: the per-IMT
non-exceedance accumulators start at 1; each per-rupture fold step keeps them
within [0, 1], correctly shaped and pointwise non-increasing; and consequently
every value of every returned hazard curve lies in [0, 1]. -/
theorem claim_C4_bounds {γ : Type} (sources : List Source) (total : ℕ)
    (imts : List (String × List ℝ)) (T : ℝ) (gsims : List (String × Gsim γ))
    (tl : ℝ)
    (ssf : List (Source × List ℕ) → Except PyErr (List (Source × List ℕ)))
    (rsf : List (Rupture × List ℕ) → Except PyErr (List (Rupture × List ℕ)))
    (cav : ℝ)
    (hg : ∀ pr ∈ gsims, GoodGsim pr.2)
    (hsrc : ∀ s ∈ sources, GoodSource s T)
    (hss : ∀ inp out, ssf inp = Except.ok out → ∀ p ∈ out, ∃ q ∈ inp, p.1 = q.1)
    (hrs : ∀ inp out, rsf inp = Except.ok out → ∀ p ∈ out, ∃ q ∈ inp, p.1 = q.1) :
    (∀ m ∈ initCurves imts total, matIn01 m ∧ ∀ row ∈ m, ∀ x ∈ row, x = 1) ∧
    (∀ (g : Gsim γ) (ctx : γ) (prob : ℝ) (r_sites : List ℕ) (cs ms : List Mat),
       GoodGsim g → 0 ≤ prob → prob ≤ 1 → curvesOK imts total cs →
       foldIMTs ⟨gsims, imts, total, T, tl, cav, rsf⟩ g ctx prob r_sites
         (imts.zip cs) = Except.ok ms →
       curvesOK imts total ms ∧ curvesLE ms cs) ∧
    (∀ out, hazard_curves_poissonian sources total imts T gsims tl ssf rsf cav =
        Except.ok out → ∀ m ∈ out, matIn01 m) := by
  refine ⟨?_, ?_, ?_⟩
  · intro m hm
    obtain ⟨p, _, rfl⟩ := List.mem_map.mp hm
    constructor
    · intro row hrow
      rw [List.eq_of_mem_replicate hrow]
      intro x hx
      rw [List.eq_of_mem_replicate hx]
      exact ⟨zero_le_one, le_refl 1⟩
    · intro row hrow x hx
      rw [List.eq_of_mem_replicate hrow] at hx
      exact List.eq_of_mem_replicate hx
  · intro g ctx prob r_sites cs ms hGg h0 h1 hok hfi
    exact foldIMTs_inv ⟨gsims, imts, total, T, tl, cav, rsf⟩ g ctx prob r_sites
      hGg h0 h1 imts cs ms hok hfi
  · intro out hrun m hm
    unfold hazard_curves_poissonian at hrun
    cases hsp : ssf (sources.map (fun s => (s, List.range total))) with
    | error e => simp only [hsp] at hrun; exact Except.noConfusion hrun
    | ok pairs =>
      simp only [hsp] at hrun
      cases hfs : foldSources ⟨gsims, imts, total, T, tl, cav, rsf⟩
          (initCurves imts total) pairs with
      | error e => simp only [hfs] at hrun; exact Except.noConfusion hrun
      | ok fin =>
        simp only [hfs] at hrun
        have hgoods : ∀ p ∈ pairs, GoodSource p.1 T := by
          intro p hp
          obtain ⟨q, hq, hpq⟩ := hss _ _ hsp p hp
          obtain ⟨s, hs, rfl⟩ := List.mem_map.mp hq
          rw [show p.1 = s from hpq]
          exact hsrc s hs
        have hfin := foldSources_inv ⟨gsims, imts, total, T, tl, cav, rsf⟩ hg
          hrs pairs (initCurves imts total) fin hgoods
          (initCurves_OK imts total) hfs
        have hout : out = fin.map
            (fun m => m.map (fun row => row.map (fun x => 1 - x))) := by
          injection hrun with h'
          exact h'.symm
        subst hout
        obtain ⟨m₀, hm₀, rfl⟩ := List.mem_map.mp hm
        obtain ⟨p, _, hmOK⟩ := forall₂_mem_right hfin.1 m₀ hm₀
        intro row hrow
        obtain ⟨row₀, hrow₀, rfl⟩ := List.mem_map.mp hrow
        intro x hx
        obtain ⟨x₀, hx₀, rfl⟩ := List.mem_map.mp hx
        have hx01 := hmOK.2 row₀ hrow₀ x₀ hx₀
        exact ⟨by linarith [hx01.2], by linarith [hx01.1]⟩

/-- Witness for C4: in the concrete one-source scenario the returned curve
value `1 - 1 * 0.9 ** 0.5` lies in [0, 1]. -/
theorem claim_C4_bounds_w : matIn01 [[1 - 1 * (1 - 0.1 : ℝ) ^ (0.5 : ℝ)]] := by
  have hg : ∀ pr ∈ gsimsW, GoodGsim pr.2 := by
    intro pr hpr
    simp only [gsimsW, List.mem_cons, List.not_mem_nil, or_false] at hpr
    subst hpr
    intro ctx imt levels tl cav poes hpo
    simp only [wGsim] at hpo
    injection hpo with h'
    constructor
    · intro row hrow
      rw [← h'] at hrow
      rcases List.mem_cons.mp hrow with rfl | hrow'
      · intro x hx
        obtain ⟨_, _, rfl⟩ := List.mem_map.mp hx
        norm_num
      · exact absurd hrow' (List.not_mem_nil row)
    · intro row hrow
      rw [← h'] at hrow
      rcases List.mem_cons.mp hrow with rfl | hrow'
      · simp
      · exact absurd hrow' (List.not_mem_nil row)
  have hsrc : ∀ s ∈ [srcA], GoodSource s 50 := by
    intro s hs
    simp only [List.mem_cons, List.not_mem_nil, or_false] at hs
    subst hs
    intro rups hr r hrr
    simp only [srcA] at hr
    injection hr with h'
    rw [← h'] at hrr
    rcases List.mem_cons.mp hrr with rfl | hrr'
    · intro p hp
      simp only [rupA] at hp
      injection hp with h''
      rw [← h'']
      norm_num
    · exact absurd hrr' (List.not_mem_nil r)
  have hss : ∀ inp out, source_site_noop_filter inp = Except.ok out →
      ∀ p ∈ out, ∃ q ∈ inp, p.1 = q.1 := by
    intro inp out h p hp
    simp only [source_site_noop_filter] at h
    injection h with h'
    rw [← h'] at hp
    exact ⟨p, hp, rfl⟩
  have hrs : ∀ inp out, rupture_site_noop_filter inp = Except.ok out →
      ∀ p ∈ out, ∃ q ∈ inp, p.1 = q.1 := by
    intro inp out h p hp
    simp only [rupture_site_noop_filter] at h
    injection h with h'
    rw [← h'] at hp
    exact ⟨p, hp, rfl⟩
  have h := (claim_C4_bounds [srcA] 1 imtsW 50 gsimsW 3
    source_site_noop_filter rupture_site_noop_filter 0 hg hsrc hss hrs).2.2
  have hrun : hazard_curves_poissonian [srcA] 1 imtsW 50 gsimsW 3
      source_site_noop_filter rupture_site_noop_filter 0 =
      Except.ok [[[1 - 1 * (1 - 0.1 : ℝ) ^ (0.5 : ℝ)]]] := rfl
  exact h _ hrun _ (by simp)

/-- A successful `imtFactors` run yields one factor matrix per IMT. -/
theorem imtFactors_length {γ : Type} (cfg : Cfg γ) (g : Gsim γ) (ctx : γ)
    (prob : ℝ) (rs : List ℕ) :
    ∀ (imts : List (String × List ℝ)) (fs : List Mat),
    imtFactors cfg g ctx prob rs imts = Except.ok fs → fs.length = imts.length
  | [], fs, h => by
    simp only [imtFactors] at h
    injection h with h'
    subst h'
    rfl
  | p :: pt, fs, h => by
    simp only [imtFactors] at h
    cases hpo : g.get_poes_cav ctx p.1 p.2 cfg.truncation_level cfg.cav_min with
    | error e => simp only [hpo] at h; exact Except.noConfusion h
    | ok poes =>
      simp only [hpo] at h
      cases hrec : imtFactors cfg g ctx prob rs pt with
      | error e => simp only [hrec] at h; exact Except.noConfusion h
      | ok fs' =>
        simp only [hrec] at h
        injection h with h'
        subst h'
        simp [imtFactors_length cfg g ctx prob rs pt fs' hrec]

/-- Elementwise products of families keep the family size. -/
theorem applyFactors_length (cs fs : List Mat) (n : ℕ) (hc : cs.length = n)
    (hf : fs.length = n) : (applyFactors cs fs).length = n := by
  simp only [applyFactors, List.length_zipWith, hc, hf, Nat.min_self]

/-- The IMT loop is the elementwise product of the accumulators with the
factors computed by `imtFactors` (success case). -/
theorem foldIMTs_factors_ok {γ : Type} (cfg : Cfg γ) (g : Gsim γ) (ctx : γ)
    (prob : ℝ) (rs : List ℕ) :
    ∀ (imts : List (String × List ℝ)) (cs fs : List Mat),
    cs.length = imts.length →
    imtFactors cfg g ctx prob rs imts = Except.ok fs →
    foldIMTs cfg g ctx prob rs (imts.zip cs) = Except.ok (applyFactors cs fs)
  | [], cs, fs, hlen, h => by
    have hcs : cs = [] := List.length_eq_zero.mp hlen
    subst hcs
    simp only [imtFactors] at h
    injection h with h'
    subst h'
    simp [foldIMTs, applyFactors]
  | p :: pt, cs, fs, hlen, h => by
    cases cs with
    | nil => simp at hlen
    | cons c ct =>
      simp only [imtFactors] at h
      cases hpo : g.get_poes_cav ctx p.1 p.2 cfg.truncation_level cfg.cav_min with
      | error e => simp only [hpo] at h; exact Except.noConfusion h
      | ok poes =>
        simp only [hpo] at h
        cases hrec : imtFactors cfg g ctx prob rs pt with
        | error e => simp only [hrec] at h; exact Except.noConfusion h
        | ok fs' =>
          simp only [hrec] at h
          injection h with h'
          subst h'
          have iht := foldIMTs_factors_ok cfg g ctx prob rs pt ct fs'
            (by simpa using hlen) hrec
          rw [List.zip_cons_cons]
          simp only [foldIMTs, hpo, iht]
          rfl

/-- The IMT loop fails exactly when `imtFactors` fails, with the same error. -/
theorem foldIMTs_factors_err {γ : Type} (cfg : Cfg γ) (g : Gsim γ) (ctx : γ)
    (prob : ℝ) (rs : List ℕ) :
    ∀ (imts : List (String × List ℝ)) (cs : List Mat) (e : PyErr),
    cs.length = imts.length →
    imtFactors cfg g ctx prob rs imts = Except.error e →
    foldIMTs cfg g ctx prob rs (imts.zip cs) = Except.error e
  | [], cs, e, _, h => by
    simp only [imtFactors] at h
    exact Except.noConfusion h
  | p :: pt, cs, e, hlen, h => by
    cases cs with
    | nil => simp at hlen
    | cons c ct =>
      simp only [imtFactors] at h
      rw [List.zip_cons_cons]
      cases hpo : g.get_poes_cav ctx p.1 p.2 cfg.truncation_level cfg.cav_min with
      | error e' =>
        simp only [hpo] at h
        injection h with h'
        subst h'
        simp only [foldIMTs, hpo]
      | ok poes =>
        simp only [hpo] at h
        cases hrec : imtFactors cfg g ctx prob rs pt with
        | error e' =>
          simp only [hrec] at h
          injection h with h'
          subst h'
          have iht := foldIMTs_factors_err cfg g ctx prob rs pt ct e'
            (by simpa using hlen) hrec
          simp only [foldIMTs, hpo, iht]
        | ok fs' => simp only [hrec] at h; exact Except.noConfusion h

/-- A successful `rupFactors` run yields families of one factor per IMT. -/
theorem rupFactors_lengths {γ : Type} (cfg : Cfg γ) :
    ∀ (pairs : List (Rupture × List ℕ)) (fss : List (List Mat)),
    rupFactors cfg pairs = Except.ok fss →
    ∀ fs ∈ fss, fs.length = cfg.imts.length
  | [], fss, h => by
    simp only [rupFactors] at h
    injection h with h'
    subst h'
    intro fs hfs
    exact absurd hfs (List.not_mem_nil fs)
  | pair :: rest, fss, h => by
    simp only [rupFactors] at h
    cases hprob : pair.1.get_probability_one_or_more_occurrences with
    | error e => simp only [hprob] at h; exact Except.noConfusion h
    | ok prob =>
      simp only [hprob] at h
      cases hlk : gsimLookup cfg.gsims pair.1.tectonic_region_type with
      | error e => simp only [hlk] at h; exact Except.noConfusion h
      | ok g =>
        simp only [hlk] at h
        cases hctx : g.make_contexts pair.2 pair.1 with
        | error e => simp only [hctx] at h; exact Except.noConfusion h
        | ok ctx =>
          simp only [hctx] at h
          cases hif : imtFactors cfg g ctx prob pair.2 cfg.imts with
          | error e => simp only [hif] at h; exact Except.noConfusion h
          | ok fs =>
            simp only [hif] at h
            cases hrr : rupFactors cfg rest with
            | error e => simp only [hrr] at h; exact Except.noConfusion h
            | ok rest' =>
              simp only [hrr] at h
              injection h with h'
              subst h'
              intro fs' hfs'
              rcases List.mem_cons.mp hfs' with rfl | hfs''
              · exact imtFactors_length cfg g ctx prob pair.2 cfg.imts fs' hif
              · exact rupFactors_lengths cfg rest rest' hrr fs' hfs''

/-- The rupture loop is the left fold of the elementwise products with the
factor families computed by `rupFactors` (success case). -/
theorem foldRuptures_factors_ok {γ : Type} (cfg : Cfg γ) :
    ∀ (pairs : List (Rupture × List ℕ)) (cs : List Mat)
      (fss : List (List Mat)), cs.length = cfg.imts.length →
    rupFactors cfg pairs = Except.ok fss →
    foldRuptures cfg cs pairs = Except.ok (fss.foldl applyFactors cs)
  | [], cs, fss, _, h => by
    simp only [rupFactors] at h
    injection h with h'
    subst h'
    simp [foldRuptures]
  | pair :: rest, cs, fss, hlen, h => by
    simp only [rupFactors] at h
    cases hprob : pair.1.get_probability_one_or_more_occurrences with
    | error e => simp only [hprob] at h; exact Except.noConfusion h
    | ok prob =>
      simp only [hprob] at h
      cases hlk : gsimLookup cfg.gsims pair.1.tectonic_region_type with
      | error e => simp only [hlk] at h; exact Except.noConfusion h
      | ok g =>
        simp only [hlk] at h
        cases hctx : g.make_contexts pair.2 pair.1 with
        | error e => simp only [hctx] at h; exact Except.noConfusion h
        | ok ctx =>
          simp only [hctx] at h
          cases hif : imtFactors cfg g ctx prob pair.2 cfg.imts with
          | error e => simp only [hif] at h; exact Except.noConfusion h
          | ok fs =>
            simp only [hif] at h
            cases hrr : rupFactors cfg rest with
            | error e => simp only [hrr] at h; exact Except.noConfusion h
            | ok rest' =>
              simp only [hrr] at h
              injection h with h'
              subst h'
              have hfl := imtFactors_length cfg g ctx prob pair.2 cfg.imts fs hif
              have hlen' : (applyFactors cs fs).length = cfg.imts.length :=
                applyFactors_length cs fs cfg.imts.length hlen hfl
              have iht := foldRuptures_factors_ok cfg rest
                (applyFactors cs fs) rest' hlen' hrr
              have hfi := foldIMTs_factors_ok cfg g ctx prob pair.2 cfg.imts
                cs fs hlen hif
              simp only [foldRuptures, hprob, hlk, hctx, hfi, iht]
              rfl

/-- The rupture loop fails exactly when `rupFactors` fails, with the same
error. -/
theorem foldRuptures_factors_err {γ : Type} (cfg : Cfg γ) :
    ∀ (pairs : List (Rupture × List ℕ)) (cs : List Mat) (e : PyErr),
    cs.length = cfg.imts.length →
    rupFactors cfg pairs = Except.error e →
    foldRuptures cfg cs pairs = Except.error e
  | [], _, e, _, h => by
    simp only [rupFactors] at h
    exact Except.noConfusion h
  | pair :: rest, cs, e, hlen, h => by
    simp only [rupFactors] at h
    cases hprob : pair.1.get_probability_one_or_more_occurrences with
    | error e' =>
      simp only [hprob] at h
      injection h with h'
      subst h'
      simp only [foldRuptures, hprob]
    | ok prob =>
      simp only [hprob] at h
      cases hlk : gsimLookup cfg.gsims pair.1.tectonic_region_type with
      | error e' =>
        simp only [hlk] at h
        injection h with h'
        subst h'
        simp only [foldRuptures, hprob, hlk]
      | ok g =>
        simp only [hlk] at h
        cases hctx : g.make_contexts pair.2 pair.1 with
        | error e' =>
          simp only [hctx] at h
          injection h with h'
          subst h'
          simp only [foldRuptures, hprob, hlk, hctx]
        | ok ctx =>
          simp only [hctx] at h
          cases hif : imtFactors cfg g ctx prob pair.2 cfg.imts with
          | error e' =>
            simp only [hif] at h
            injection h with h'
            subst h'
            have hfe := foldIMTs_factors_err cfg g ctx prob pair.2 cfg.imts
              cs e' hlen hif
            simp only [foldRuptures, hprob, hlk, hctx, hfe]
          | ok fs =>
            simp only [hif] at h
            cases hrr : rupFactors cfg rest with
            | error e' =>
              simp only [hrr] at h
              injection h with h'
              subst h'
              have hfl := imtFactors_length cfg g ctx prob pair.2 cfg.imts fs hif
              have hlen' : (applyFactors cs fs).length = cfg.imts.length :=
                applyFactors_length cs fs cfg.imts.length hlen hfl
              have iht := foldRuptures_factors_err cfg rest
                (applyFactors cs fs) e' hlen' hrr
              have hfi := foldIMTs_factors_ok cfg g ctx prob pair.2 cfg.imts
                cs fs hlen hif
              simp only [foldRuptures, hprob, hlk, hctx, hfi, iht]
            | ok rest' => simp only [hrr] at h; exact Except.noConfusion h

/-- Processing one source is the left fold of the elementwise products with
the source's factor families (success case). -/
theorem innerSource_factors_ok {γ : Type} (cfg : Cfg γ) (s : Source)
    (ss : List ℕ) (cs : List Mat) (fss : List (List Mat))
    (hlen : cs.length = cfg.imts.length)
    (h : srcFactors cfg s ss = Except.ok fss) :
    innerSource cfg cs s ss = Except.ok (fss.foldl applyFactors cs) := by
  unfold srcFactors at h
  unfold innerSource
  cases hit : s.iter_ruptures cfg.time_span with
  | error e => simp only [hit] at h; exact Except.noConfusion h
  | ok rups =>
    simp only [hit] at h ⊢
    cases hfl : cfg.rupture_site_filter (rups.map (fun r => (r, ss))) with
    | error e => simp only [hfl] at h; exact Except.noConfusion h
    | ok pairs =>
      simp only [hfl] at h ⊢
      exact foldRuptures_factors_ok cfg pairs cs fss hlen h

/-- Processing one source fails exactly when its factor extraction fails. -/
theorem innerSource_factors_err {γ : Type} (cfg : Cfg γ) (s : Source)
    (ss : List ℕ) (cs : List Mat) (e : PyErr)
    (hlen : cs.length = cfg.imts.length)
    (h : srcFactors cfg s ss = Except.error e) :
    innerSource cfg cs s ss = Except.error e := by
  unfold srcFactors at h
  unfold innerSource
  cases hit : s.iter_ruptures cfg.time_span with
  | error e' =>
    simp only [hit] at h ⊢
    injection h with h'
    subst h'
    rfl
  | ok rups =>
    simp only [hit] at h ⊢
    cases hfl : cfg.rupture_site_filter (rups.map (fun r => (r, ss))) with
    | error e' =>
      simp only [hfl] at h ⊢
      injection h with h'
      subst h'
      rfl
    | ok pairs =>
      simp only [hfl] at h ⊢
      exact foldRuptures_factors_err cfg pairs cs e hlen h

/-- A successful `srcFactors` run yields families of one factor per IMT. -/
theorem srcFactors_lengths {γ : Type} (cfg : Cfg γ) (s : Source) (ss : List ℕ)
    (fss : List (List Mat)) (h : srcFactors cfg s ss = Except.ok fss) :
    ∀ fs ∈ fss, fs.length = cfg.imts.length := by
  unfold srcFactors at h
  cases hit : s.iter_ruptures cfg.time_span with
  | error e => simp only [hit] at h; exact Except.noConfusion h
  | ok rups =>
    simp only [hit] at h
    cases hfl : cfg.rupture_site_filter (rups.map (fun r => (r, ss))) with
    | error e => simp only [hfl] at h; exact Except.noConfusion h
    | ok pairs =>
      simp only [hfl] at h
      exact rupFactors_lengths cfg pairs fss h

/-- Folding factor families of the right size keeps the family size. -/
theorem foldl_applyFactors_length (n : ℕ) :
    ∀ (fss : List (List Mat)) (cs : List Mat), cs.length = n →
    (∀ fs ∈ fss, fs.length = n) → (fss.foldl applyFactors cs).length = n
  | [], cs, h, _ => h
  | fs :: t, cs, h, hw => by
    rw [List.foldl_cons]
    exact foldl_applyFactors_length n t (applyFactors cs fs)
      (applyFactors_length cs fs n h (hw fs (by simp)))
      (fun q hq => hw q (by simp [hq]))

/-- The source loop is the left fold of the elementwise products with the
concatenated factor families (success case). -/
theorem foldSources_factors_ok {γ : Type} (cfg : Cfg γ) :
    ∀ (l : List (Source × List ℕ)) (cs : List Mat) (F : List (List Mat)),
    cs.length = cfg.imts.length → allFactors cfg l = Except.ok F →
    foldSources cfg cs l = Except.ok (F.foldl applyFactors cs)
  | [], cs, F, _, h => by
    simp only [allFactors] at h
    injection h with h'
    subst h'
    simp [foldSources]
  | p :: rest, cs, F, hlen, h => by
    simp only [allFactors] at h
    cases hsf : srcFactors cfg p.1 p.2 with
    | error e => simp only [hsf] at h; exact Except.noConfusion h
    | ok fss =>
      simp only [hsf] at h
      cases har : allFactors cfg rest with
      | error e => simp only [har] at h; exact Except.noConfusion h
      | ok rest' =>
        simp only [har] at h
        injection h with h'
        subst h'
        have hlen' : (fss.foldl applyFactors cs).length = cfg.imts.length :=
          foldl_applyFactors_length cfg.imts.length fss cs hlen
            (srcFactors_lengths cfg p.1 p.2 fss hsf)
        have hin := innerSource_factors_ok cfg p.1 p.2 cs fss hlen hsf
        have iht := foldSources_factors_ok cfg rest
          (fss.foldl applyFactors cs) rest' hlen' har
        simp only [foldSources, hin, iht]
        rw [List.foldl_append]

/-- The source loop fails exactly when the concatenated factor extraction
fails, with the same (already wrapped) error. -/
theorem foldSources_factors_err {γ : Type} (cfg : Cfg γ) :
    ∀ (l : List (Source × List ℕ)) (cs : List Mat) (e : PyErr),
    cs.length = cfg.imts.length → allFactors cfg l = Except.error e →
    foldSources cfg cs l = Except.error e
  | [], _, e, _, h => by
    simp only [allFactors] at h
    exact Except.noConfusion h
  | p :: rest, cs, e, hlen, h => by
    simp only [allFactors] at h
    cases hsf : srcFactors cfg p.1 p.2 with
    | error e' =>
      simp only [hsf] at h
      injection h with h'
      subst h'
      have hin := innerSource_factors_err cfg p.1 p.2 cs e' hlen hsf
      simp only [foldSources, hin]
    | ok fss =>
      simp only [hsf] at h
      cases har : allFactors cfg rest with
      | error e' =>
        simp only [har] at h
        injection h with h'
        subst h'
        have hlen' : (fss.foldl applyFactors cs).length = cfg.imts.length :=
          foldl_applyFactors_length cfg.imts.length fss cs hlen
            (srcFactors_lengths cfg p.1 p.2 fss hsf)
        have hin := innerSource_factors_ok cfg p.1 p.2 cs fss hlen hsf
        have iht := foldSources_factors_err cfg rest
          (fss.foldl applyFactors cs) e' hlen' har
        simp only [foldSources, hin, iht]
      | ok rest' => simp only [har] at h; exact Except.noConfusion h

/-- If the whole factor extraction succeeds, every source's factor extraction
succeeds. -/
theorem allFactors_ok_each {γ : Type} (cfg : Cfg γ) :
    ∀ (l : List (Source × List ℕ)) (F : List (List Mat)),
    allFactors cfg l = Except.ok F →
    ∀ p ∈ l, ∃ fss, srcFactors cfg p.1 p.2 = Except.ok fss
  | [], F, _ => by
    intro p hp
    exact absurd hp (List.not_mem_nil p)
  | q :: rest, F, h => by
    simp only [allFactors] at h
    cases hsf : srcFactors cfg q.1 q.2 with
    | error e => simp only [hsf] at h; exact Except.noConfusion h
    | ok fss =>
      simp only [hsf] at h
      cases har : allFactors cfg rest with
      | error e => simp only [har] at h; exact Except.noConfusion h
      | ok rest' =>
        intro p hp
        rcases List.mem_cons.mp hp with rfl | hp'
        · exact ⟨fss, hsf⟩
        · exact allFactors_ok_each cfg rest rest' har p hp'

/-- When every source's factor extraction succeeds, the concatenated factor
families are the flattened per-source families. -/
theorem allFactors_eq_flatten {γ : Type} (cfg : Cfg γ) :
    ∀ (l : List (Source × List ℕ)),
    (∀ p ∈ l, ∃ fss, srcFactors cfg p.1 p.2 = Except.ok fss) →
    allFactors cfg l = Except.ok
      ((l.map (fun p => exceptOkD (srcFactors cfg p.1 p.2) [])).flatten)
  | [], _ => by simp [allFactors]
  | p :: rest, hall => by
    obtain ⟨fss, hfss⟩ := hall p (by simp)
    have iht := allFactors_eq_flatten cfg rest (fun q hq => hall q (by simp [hq]))
    simp only [allFactors, hfss, iht, List.map_cons, List.flatten_cons,
      exceptOkD]

/-- Right-commutativity lifts along `zipWith`. -/
theorem zipWith_right_comm {α : Type} (g : α → α → α)
    (hg : ∀ a b c, g (g a b) c = g (g a c) b) :
    ∀ (a b c : List α), List.zipWith g (List.zipWith g a b) c =
      List.zipWith g (List.zipWith g a c) b
  | [], _, _ => by simp
  | a :: t, [], c => by simp
  | a :: t, b :: u, [] => by simp
  | a :: t, b :: u, c :: v => by
    simp only [List.zipWith_cons_cons]
    rw [hg a b c, zipWith_right_comm g hg t u v]

/-- Right-commutativity of the elementwise matrix product. -/
theorem matMul_right_comm (a b c : Mat) :
    matMul (matMul a b) c = matMul (matMul a c) b :=
  zipWith_right_comm (fun r s => List.zipWith (fun x y => x * y) r s)
    (fun r s t => zipWith_right_comm (fun x y => x * y)
      (fun x y z => mul_right_comm x y z) r s t) a b c

/-- Right-commutativity of the per-rupture reduction step. -/
theorem applyFactors_right_comm (cs f1 f2 : List Mat) :
    applyFactors (applyFactors cs f1) f2 = applyFactors (applyFactors cs f2) f1 :=
  zipWith_right_comm matMul matMul_right_comm cs f1 f2

/-- C5: permuting the sources sequence does not change a successfully computed
curve family: the per-rupture fold is an elementwise product, hence commutative
and associative across ruptures.  The source-site filter is assumed to act
entrywise on the pair stream (the filter contract), expressed as a
`List.filterMap`. -/
theorem claim_C5_order_independence {γ : Type} (sources₁ sources₂ : List Source)
    (total : ℕ) (imts : List (String × List ℝ)) (T : ℝ)
    (gsims : List (String × Gsim γ)) (tl : ℝ)
    (ssf : List (Source × List ℕ) → Except PyErr (List (Source × List ℕ)))
    (rsf : List (Rupture × List ℕ) → Except PyErr (List (Rupture × List ℕ)))
    (cav : ℝ) (c : List Mat)
    (f : Source × List ℕ → Option (Source × List ℕ))
    (hf : ∀ l, ssf l = Except.ok (l.filterMap f))
    (hperm : sources₁.Perm sources₂)
    (h1 : hazard_curves_poissonian sources₁ total imts T gsims tl ssf rsf cav =
      Except.ok c) :
    hazard_curves_poissonian sources₂ total imts T gsims tl ssf rsf cav =
      Except.ok c := by
  have hlen0 : (initCurves imts total).length = imts.length := by
    simp [initCurves]
  simp only [hazard_curves_poissonian, hf] at h1 ⊢
  cases hA1 : allFactors (⟨gsims, imts, total, T, tl, cav, rsf⟩ : Cfg γ)
      ((sources₁.map (fun s => (s, List.range total))).filterMap f) with
  | error e =>
    rw [foldSources_factors_err _ _ _ _ hlen0 hA1] at h1
    exact absurd h1 (by simp)
  | ok F₁ =>
    rw [foldSources_factors_ok _ _ _ _ hlen0 hA1] at h1
    have heach₁ := allFactors_ok_each _ _ _ hA1
    have hL : ((sources₂.map (fun s => (s, List.range total))).filterMap f).Perm
        ((sources₁.map (fun s => (s, List.range total))).filterMap f) :=
      List.Perm.filterMap f (List.Perm.map _ hperm.symm)
    have heach₂ : ∀ p ∈ (sources₂.map (fun s => (s, List.range total))).filterMap f,
        ∃ fss, srcFactors (⟨gsims, imts, total, T, tl, cav, rsf⟩ : Cfg γ)
          p.1 p.2 = Except.ok fss :=
      fun p hp => heach₁ p (hL.mem_iff.mp hp)
    have hA2 := allFactors_eq_flatten
      (⟨gsims, imts, total, T, tl, cav, rsf⟩ : Cfg γ) _ heach₂
    have hA1f := allFactors_eq_flatten
      (⟨gsims, imts, total, T, tl, cav, rsf⟩ : Cfg γ) _ heach₁
    have hF₁ : F₁ = (((sources₁.map (fun s => (s, List.range total))).filterMap
        f).map (fun p => exceptOkD (srcFactors
          (⟨gsims, imts, total, T, tl, cav, rsf⟩ : Cfg γ) p.1 p.2) [])).flatten :=
      Except.ok.inj (hA1.symm.trans hA1f)
    have hPF := List.Perm.flatten (List.Perm.map
      (fun p => exceptOkD (srcFactors
        (⟨gsims, imts, total, T, tl, cav, rsf⟩ : Cfg γ) p.1 p.2) []) hL)
    have hfold := List.Perm.foldl_eq' hPF
      (fun x _ y _ z => applyFactors_right_comm z x y) (initCurves imts total)
    rw [foldSources_factors_ok _ _ _ _ hlen0 hA2, hfold, ← hF₁]
    exact h1

/-- Witness for C5: swapping the two sources of a concrete two-source run
reproduces the same curve family. -/
theorem claim_C5_order_independence_w :
    hazard_curves_poissonian [srcB, srcA] 1 imtsW 50 gsimsW 3
      (fun l => Except.ok (l.filterMap some)) rupture_site_noop_filter 0 =
      Except.ok
        [[[1 - 1 * (1 - 0.1 : ℝ) ^ (0.5 : ℝ) * (1 - 0.2 : ℝ) ^ (0.5 : ℝ)]]] :=
  claim_C5_order_independence [srcA, srcB] [srcB, srcA] 1 imtsW 50 gsimsW 3
    (fun l => Except.ok (l.filterMap some)) rupture_site_noop_filter 0
    [[[1 - 1 * (1 - 0.1 : ℝ) ^ (0.5 : ℝ) * (1 - 0.2 : ℝ) ^ (0.5 : ℝ)]]] some
    (fun _ => rfl)
    (List.Perm.swap srcB srcA []) rfl

/-- C2: for one source with a single rupture of occurrence probability 0.1,
one site, and one IMT with one level for which the ground-motion model stub
returns exceedance probability 0.5, the aggregator returns the curve value
`1 - (1 - 0.1) ** 0.5`, which lies between 0.0513 and 0.05132 (approximately
0.05132). -/
theorem claim_C2_concrete_scenario :
    hazard_curves_poissonian [srcA] 1 imtsW 50 gsimsW 3
      source_site_noop_filter rupture_site_noop_filter 0 =
      Except.ok [[[1 - (1 - 0.1 : ℝ) ^ (0.5 : ℝ)]]] ∧
    (0.0513 : ℝ) < 1 - (1 - 0.1 : ℝ) ^ (0.5 : ℝ) ∧
    1 - (1 - 0.1 : ℝ) ^ (0.5 : ℝ) < (0.05132 : ℝ) := by
  have hx : (0 : ℝ) < 1 - 0.1 := by norm_num
  have hy2 : (1 - 0.1 : ℝ) ^ (0.5 : ℝ) * (1 - 0.1 : ℝ) ^ (0.5 : ℝ) = 1 - 0.1 := by
    rw [← Real.rpow_add hx, show (0.5 : ℝ) + 0.5 = 1 by norm_num, Real.rpow_one]
  have hypos : 0 < (1 - 0.1 : ℝ) ^ (0.5 : ℝ) := Real.rpow_pos_of_pos hx _
  have hub : (1 - 0.1 : ℝ) ^ (0.5 : ℝ) < 0.9487 := by nlinarith
  have hlb : (0.94868 : ℝ) < (1 - 0.1 : ℝ) ^ (0.5 : ℝ) := by nlinarith
  refine ⟨?_, by linarith, by linarith⟩
  have h : hazard_curves_poissonian [srcA] 1 imtsW 50 gsimsW 3
      source_site_noop_filter rupture_site_noop_filter 0 =
      Except.ok [[[1 - 1 * (1 - 0.1 : ℝ) ^ (0.5 : ℝ)]]] := rfl
  rw [h]
  norm_num

/-- Multiplying a row elementwise by an all-ones row of its own length is the
identity. -/
theorem zipWith_mul_one_right (row : List ℝ) :
    List.zipWith (fun x y => x * y) row (List.replicate row.length 1) = row := by
  induction row with
  | nil => rfl
  | cons a t ih => simp [List.replicate_succ, ih]

/-- Row `i` of an elementwise product is the elementwise product of the rows. -/
theorem matMul_getD (a b : Mat) (i : ℕ) (hia : i < a.length)
    (hib : i < b.length) :
    (matMul a b).getD i [] =
      List.zipWith (fun x y => x * y) (a.getD i []) (b.getD i []) := by
  have h : i < (matMul a b).length := by
    simp only [matMul, List.length_zipWith, lt_min_iff]
    exact ⟨hia, hib⟩
  rw [List.getD_eq_getElem _ _ h, List.getD_eq_getElem _ _ hia,
    List.getD_eq_getElem _ _ hib]
  exact List.getElem_zipWith

/-- Row `i` of an expanded array is the scattered row when site `i` belongs to
the subset's index mapping, and the all-placeholder row otherwise. -/
theorem expand_getD (ind : List ℕ) (arr : Mat) (total L i : ℕ) (hi : i < total) :
    (expand ind arr total L).getD i [] =
      if ind.indexOf i < arr.length then arr.getD (ind.indexOf i) []
      else List.replicate L 1 := by
  have h1 : i < (expand ind arr total L).length := by
    simpa [expand] using hi
  rw [List.getD_eq_getElem _ _ h1]
  simp [expand]

/-- C1: one accumulator update multiplies, for the sites present in the
rupture's subset, the existing non-exceedance row elementwise by
`(1 - prob) ** poes` (the row of the subset position of that site), and leaves
the rows of absent sites unchanged (they are multiplied by the placeholder
1.0). -/
theorem claim_C1_fold_step (cur poes : Mat) (r_sites : List ℕ) (prob : ℝ)
    (total L : ℕ) (hc : cur.length = total)
    (hcr : ∀ row ∈ cur, row.length = L)
    (hp : poes.length = r_sites.length) :
    (curveStep cur r_sites prob poes total L).length = total ∧
    (∀ i, i < total → i ∉ r_sites →
      (curveStep cur r_sites prob poes total L).getD i [] = cur.getD i []) ∧
    (∀ i, i < total → i ∈ r_sites →
      (curveStep cur r_sites prob poes total L).getD i [] =
        List.zipWith (fun c p => c * (1 - prob) ^ p) (cur.getD i [])
          (poes.getD (r_sites.indexOf i) [])) := by
  have harr : (poeFactor prob poes).length = r_sites.length := by
    simp [poeFactor, hp]
  have hexlen : (expand r_sites (poeFactor prob poes) total L).length = total := by
    simp [expand]
  have hlen : (curveStep cur r_sites prob poes total L).length = total := by
    simp only [curveStep, matMul, List.length_zipWith, hc, hexlen, Nat.min_self]
  refine ⟨hlen, ?_, ?_⟩
  · intro i hi hmem
    have hia : i < cur.length := by rw [hc]; exact hi
    have hib : i < (expand r_sites (poeFactor prob poes) total L).length := by
      rw [hexlen]; exact hi
    have hidx : r_sites.indexOf i = r_sites.length :=
      List.indexOf_eq_length.mpr hmem
    have hrow : (cur.getD i []).length = L := by
      rw [List.getD_eq_getElem _ _ hia]
      exact hcr _ (List.getElem_mem hia)
    simp only [curveStep]
    rw [matMul_getD _ _ i hia hib, expand_getD _ _ _ _ _ hi, harr, hidx,
      if_neg (lt_irrefl _), ← hrow, zipWith_mul_one_right]
  · intro i hi hmem
    have hia : i < cur.length := by rw [hc]; exact hi
    have hib : i < (expand r_sites (poeFactor prob poes) total L).length := by
      rw [hexlen]; exact hi
    have hk : r_sites.indexOf i < r_sites.length :=
      List.indexOf_lt_length.mpr hmem
    have hkp : r_sites.indexOf i < poes.length := by rw [hp]; exact hk
    have hka : r_sites.indexOf i < (poeFactor prob poes).length := by
      rw [harr]; exact hk
    simp only [curveStep]
    rw [matMul_getD _ _ i hia hib, expand_getD _ _ _ _ _ hi, harr,
      if_pos hk, List.getD_eq_getElem _ _ hka, List.getD_eq_getElem _ _ hkp]
    simp only [poeFactor, List.getElem_map]
    rw [List.zipWith_map_right]

/-- Witness for C1: with two sites, a subset containing only site 1,
occurrence probability 0.1 and a single 0.5 exceedance probability, site 0
keeps its accumulator row and site 1 is multiplied by `0.9 ** 0.5`. -/
theorem claim_C1_fold_step_w :
    (curveStep [[0.25], [0.5]] [1] 0.1 [[0.5]] 2 1).getD 0 [] =
      ([[0.25], [0.5]] : Mat).getD 0 [] ∧
    (curveStep [[0.25], [0.5]] [1] 0.1 [[0.5]] 2 1).getD 1 [] =
      List.zipWith (fun c p => c * (1 - 0.1 : ℝ) ^ p)
        (([[0.25], [0.5]] : Mat).getD 1 []) (([[0.5]] : Mat).getD 0 []) := by
  have h := claim_C1_fold_step [[0.25], [0.5]] [[0.5]] [1] 0.1 2 1
    rfl (by intro row hr; simp only [List.mem_cons, List.not_mem_nil,
      or_false] at hr; rcases hr with rfl | rfl <;> rfl) rfl
  refine ⟨h.2.1 0 (by norm_num) (by simp), ?_⟩
  have h2 := h.2.2 1 (by norm_num) (by simp)
  simpa using h2

/-- C3: with an empty sources sequence (and a source-site filter honouring the
filter contract on the empty stream), the aggregator returns, for each IMT, an
array of shape (number of sites × number of levels) in which every value is
zero. -/
theorem claim_C3_empty_sources {γ : Type} (total : ℕ)
    (imts : List (String × List ℝ)) (T : ℝ) (gsims : List (String × Gsim γ))
    (tl : ℝ)
    (ssf : List (Source × List ℕ) → Except PyErr (List (Source × List ℕ)))
    (rsf : List (Rupture × List ℕ) → Except PyErr (List (Rupture × List ℕ)))
    (cav : ℝ) (hss : ssf [] = Except.ok []) :
    hazard_curves_poissonian [] total imts T gsims tl ssf rsf cav =
      Except.ok (imts.map (fun p =>
        List.replicate total (List.replicate p.2.length 0))) := by
  unfold hazard_curves_poissonian
  simp only [List.map_nil]
  rw [hss]
  simp [foldSources, initCurves, List.map_map, List.map_replicate,
    Function.comp_def, sub_self]

/-- Witness for C3: the empty sources list with two sites, one IMT with one
level and the no-op filters yields the all-zero 2 × 1 curve. -/
theorem claim_C3_empty_sources_w :
    hazard_curves_poissonian (γ := Unit) [] 2 imtsW 50 [] 3
      source_site_noop_filter rupture_site_noop_filter 0 =
      Except.ok [[[0], [0]]] := by
  have h := claim_C3_empty_sources (γ := Unit) 2 imtsW 50 [] 3
    source_site_noop_filter rupture_site_noop_filter 0 rfl
  simpa [imtsW, List.replicate] using h

end OQ

end
